import Mathlib

set_option maxRecDepth 10000

/-!
Verification of the LUASCRIPT front-end (src/src/lexer/enhanced_lexer.py,
src/src/parser/enhanced_parser.py, src/src/transpiler/enhanced_transpiler.py)
against its natural-language specification.

The Python sources are shallowly embedded: the lexer, the recursive-descent
parser and the code generator are translated into executable Lean functions.
Iteration in the Python source (while-loops, recursive descent) is modelled
either by structural recursion on the remaining character list or by an
explicit fuel parameter; fuel exhaustion is a distinguished outcome that is
proved unreachable where a claim depends on it.
-/

/-! ## Lexer data model (enhanced_lexer.py, class TokenType / Token / LexerError) -/

inductive TokenType where
  | NUMBER | STRING | TEMPLATE_STRING | TEMPLATE_START | TEMPLATE_MIDDLE
  | TEMPLATE_END | TEMPLATE_EXPRESSION | BOOLEAN | NULL | UNDEFINED
  | MATH_PI | MATH_E | MATH_PHI | MATH_INFINITY | MATH_SQRT2 | MATH_SQRT3
  | MULTIPLY_UNICODE | DIVIDE_UNICODE | MINUS_UNICODE | PLUS_MINUS | SQRT
  | ARROW_RIGHT | ARROW_LEFT | ARROW_DOUBLE | ARROW_LEFT_RIGHT
  | SUMMATION | PRODUCT | INTEGRAL | PARTIAL_OP | NABLA | DELTA
  | COMPOSITION | BINARY_COMPOSITION | LAMBDA
  | ELEMENT_OF | NOT_ELEMENT_OF | SUBSET | SUPERSET | UNION | INTERSECTION | EMPTY_SET
  | LESS_EQUAL_UNICODE | GREATER_EQUAL_UNICODE | NOT_EQUAL_UNICODE
  | APPROXIMATELY | PROPORTIONAL
  | SUPERSCRIPT_NUMBER | SUBSCRIPT_NUMBER
  | IDENTIFIER
  | LET | CONST | VAR | FUNCTION | CLASS | STRUCT | IF | ELSE | FOR | WHILE | DO
  | BREAK | CONTINUE | RETURN | TRY | CATCH | FINALLY | THROW | NEW | THIS
  | EXTENDS | STATIC | TRUE | FALSE | OF | IN | INSTANCEOF | TYPEOF | VOID
  | DELETE | ASYNC | AWAIT | YIELD | IMPORT | EXPORT | FROM | DEFAULT | AS
  | NEURAL | TENSOR | SIMD | PARALLEL | FAST | CPU_FRIENDLY | MATCH | WHEN
  | INT8 | INT16 | INT32 | INT64 | UINT8 | UINT16 | UINT32 | UINT64
  | FLOAT32 | FLOAT64 | REAL | COMPLEX
  | PLUS | MINUS | MULTIPLY | DIVIDE | MODULO | POWER
  | ASSIGN | PLUS_ASSIGN | MINUS_ASSIGN | MULTIPLY_ASSIGN | DIVIDE_ASSIGN
  | EQUAL | NOT_EQUAL | STRICT_EQUAL | STRICT_NOT_EQUAL
  | LESS | LESS_EQUAL | GREATER | GREATER_EQUAL
  | AND | OR | NOT | LOGICAL_AND | LOGICAL_OR
  | INCREMENT | DECREMENT | ARROW | DOT_DOT_DOT
  | PIPELINE | REVERSE_PIPELINE | PIPE
  | RANGE_INCLUSIVE | RANGE_EXCLUSIVE
  | SEMICOLON | COMMA | DOT | COLON | QUESTION | EXCLAMATION
  | LEFT_PAREN | RIGHT_PAREN | LEFT_BRACE | RIGHT_BRACE | LEFT_BRACKET | RIGHT_BRACKET
  | EOF | NEWLINE
  deriving DecidableEq

/-- Python enum member name of a token type (TokenType.<name>.name), used in
parser error messages produced by EnhancedParser.consume. -/
def ttName : TokenType → String
  | .NUMBER => "NUMBER" | .STRING => "STRING" | .TEMPLATE_STRING => "TEMPLATE_STRING"
  | .TEMPLATE_START => "TEMPLATE_START" | .TEMPLATE_MIDDLE => "TEMPLATE_MIDDLE"
  | .TEMPLATE_END => "TEMPLATE_END" | .TEMPLATE_EXPRESSION => "TEMPLATE_EXPRESSION"
  | .BOOLEAN => "BOOLEAN" | .NULL => "NULL" | .UNDEFINED => "UNDEFINED"
  | .MATH_PI => "MATH_PI" | .MATH_E => "MATH_E" | .MATH_PHI => "MATH_PHI"
  | .MATH_INFINITY => "MATH_INFINITY" | .MATH_SQRT2 => "MATH_SQRT2" | .MATH_SQRT3 => "MATH_SQRT3"
  | .MULTIPLY_UNICODE => "MULTIPLY_UNICODE" | .DIVIDE_UNICODE => "DIVIDE_UNICODE"
  | .MINUS_UNICODE => "MINUS_UNICODE" | .PLUS_MINUS => "PLUS_MINUS" | .SQRT => "SQRT"
  | .ARROW_RIGHT => "ARROW_RIGHT" | .ARROW_LEFT => "ARROW_LEFT"
  | .ARROW_DOUBLE => "ARROW_DOUBLE" | .ARROW_LEFT_RIGHT => "ARROW_LEFT_RIGHT"
  | .SUMMATION => "SUMMATION" | .PRODUCT => "PRODUCT" | .INTEGRAL => "INTEGRAL"
  | .PARTIAL_OP => "PARTIAL" | .NABLA => "NABLA" | .DELTA => "DELTA"
  | .COMPOSITION => "COMPOSITION" | .BINARY_COMPOSITION => "BINARY_COMPOSITION"
  | .LAMBDA => "LAMBDA"
  | .ELEMENT_OF => "ELEMENT_OF" | .NOT_ELEMENT_OF => "NOT_ELEMENT_OF"
  | .SUBSET => "SUBSET" | .SUPERSET => "SUPERSET" | .UNION => "UNION"
  | .INTERSECTION => "INTERSECTION" | .EMPTY_SET => "EMPTY_SET"
  | .LESS_EQUAL_UNICODE => "LESS_EQUAL_UNICODE" | .GREATER_EQUAL_UNICODE => "GREATER_EQUAL_UNICODE"
  | .NOT_EQUAL_UNICODE => "NOT_EQUAL_UNICODE" | .APPROXIMATELY => "APPROXIMATELY"
  | .PROPORTIONAL => "PROPORTIONAL"
  | .SUPERSCRIPT_NUMBER => "SUPERSCRIPT_NUMBER" | .SUBSCRIPT_NUMBER => "SUBSCRIPT_NUMBER"
  | .IDENTIFIER => "IDENTIFIER"
  | .LET => "LET" | .CONST => "CONST" | .VAR => "VAR" | .FUNCTION => "FUNCTION"
  | .CLASS => "CLASS" | .STRUCT => "STRUCT" | .IF => "IF" | .ELSE => "ELSE"
  | .FOR => "FOR" | .WHILE => "WHILE" | .DO => "DO" | .BREAK => "BREAK"
  | .CONTINUE => "CONTINUE" | .RETURN => "RETURN" | .TRY => "TRY" | .CATCH => "CATCH"
  | .FINALLY => "FINALLY" | .THROW => "THROW" | .NEW => "NEW" | .THIS => "THIS"
  | .EXTENDS => "EXTENDS" | .STATIC => "STATIC" | .TRUE => "TRUE" | .FALSE => "FALSE"
  | .OF => "OF" | .IN => "IN" | .INSTANCEOF => "INSTANCEOF" | .TYPEOF => "TYPEOF"
  | .VOID => "VOID" | .DELETE => "DELETE" | .ASYNC => "ASYNC" | .AWAIT => "AWAIT"
  | .YIELD => "YIELD" | .IMPORT => "IMPORT" | .EXPORT => "EXPORT" | .FROM => "FROM"
  | .DEFAULT => "DEFAULT" | .AS => "AS"
  | .NEURAL => "NEURAL" | .TENSOR => "TENSOR" | .SIMD => "SIMD" | .PARALLEL => "PARALLEL"
  | .FAST => "FAST" | .CPU_FRIENDLY => "CPU_FRIENDLY" | .MATCH => "MATCH" | .WHEN => "WHEN"
  | .INT8 => "INT8" | .INT16 => "INT16" | .INT32 => "INT32" | .INT64 => "INT64"
  | .UINT8 => "UINT8" | .UINT16 => "UINT16" | .UINT32 => "UINT32" | .UINT64 => "UINT64"
  | .FLOAT32 => "FLOAT32" | .FLOAT64 => "FLOAT64" | .REAL => "REAL" | .COMPLEX => "COMPLEX"
  | .PLUS => "PLUS" | .MINUS => "MINUS" | .MULTIPLY => "MULTIPLY" | .DIVIDE => "DIVIDE"
  | .MODULO => "MODULO" | .POWER => "POWER"
  | .ASSIGN => "ASSIGN" | .PLUS_ASSIGN => "PLUS_ASSIGN" | .MINUS_ASSIGN => "MINUS_ASSIGN"
  | .MULTIPLY_ASSIGN => "MULTIPLY_ASSIGN" | .DIVIDE_ASSIGN => "DIVIDE_ASSIGN"
  | .EQUAL => "EQUAL" | .NOT_EQUAL => "NOT_EQUAL" | .STRICT_EQUAL => "STRICT_EQUAL"
  | .STRICT_NOT_EQUAL => "STRICT_NOT_EQUAL" | .LESS => "LESS" | .LESS_EQUAL => "LESS_EQUAL"
  | .GREATER => "GREATER" | .GREATER_EQUAL => "GREATER_EQUAL"
  | .AND => "AND" | .OR => "OR" | .NOT => "NOT" | .LOGICAL_AND => "LOGICAL_AND"
  | .LOGICAL_OR => "LOGICAL_OR"
  | .INCREMENT => "INCREMENT" | .DECREMENT => "DECREMENT" | .ARROW => "ARROW"
  | .DOT_DOT_DOT => "DOT_DOT_DOT"
  | .PIPELINE => "PIPELINE" | .REVERSE_PIPELINE => "REVERSE_PIPELINE" | .PIPE => "PIPE"
  | .RANGE_INCLUSIVE => "RANGE_INCLUSIVE" | .RANGE_EXCLUSIVE => "RANGE_EXCLUSIVE"
  | .SEMICOLON => "SEMICOLON" | .COMMA => "COMMA" | .DOT => "DOT" | .COLON => "COLON"
  | .QUESTION => "QUESTION" | .EXCLAMATION => "EXCLAMATION"
  | .LEFT_PAREN => "LEFT_PAREN" | .RIGHT_PAREN => "RIGHT_PAREN"
  | .LEFT_BRACE => "LEFT_BRACE" | .RIGHT_BRACE => "RIGHT_BRACE"
  | .LEFT_BRACKET => "LEFT_BRACKET" | .RIGHT_BRACKET => "RIGHT_BRACKET"
  | .EOF => "EOF" | .NEWLINE => "NEWLINE"

structure Token where
  type : TokenType
  value : String
  line : Int
  column : Int
  unicode_name : Option String := none
  deriving DecidableEq

structure LexerError where
  message : String
  line : Int
  column : Int
  deriving DecidableEq

/-! ## Character classification

Python's `str.isdigit` / `str.isalnum` are Unicode-aware; in particular the
superscript and subscript digit characters satisfy `isdigit` (and hence
`isalnum`), which matters for number scanning.  The embedding restricts the
Unicode part of these predicates to the mathematical alphabet actually used
by the language (the characters appearing in the lexer's tables); all other
characters relevant to the lexer are ASCII. -/

def superscriptDigitChars : List Char :=
  ['⁰', '¹', '²', '³', '⁴', '⁵', '⁶', '⁷', '⁸', '⁹']

def subscriptDigitChars : List Char :=
  ['₀', '₁', '₂', '₃', '₄', '₅', '₆', '₇', '₈', '₉']

/-- Python `str.isdigit` (restricted as described above). -/
def pyIsDigit (c : Char) : Bool :=
  c.isDigit || superscriptDigitChars.contains c || subscriptDigitChars.contains c

/-- Letter-like mathematical characters (Python `str.isalpha` is true on them). -/
def mathLetterChars : List Char := ['π', 'ℯ', 'φ', 'λ', 'Δ']

/-- Python `str.isalnum` (restricted as described above). -/
def pyIsAlnum (c : Char) : Bool :=
  c.isAlphanum || pyIsDigit c || mathLetterChars.contains c

/-- Continuation predicate of `_scan_identifier`:
`peek().isalnum() or peek() in '_$'` (`_is_valid_identifier_unicode` is
constantly false in the source). -/
def pyIdentCont (c : Char) : Bool :=
  pyIsAlnum c || c = '_' || c = '$'

/-! ## Lexer tables (EnhancedLexer.MATHEMATICAL_CONSTANTS / MATHEMATICAL_OPERATORS / KEYWORDS) -/

def MATHEMATICAL_CONSTANTS : List (Char × TokenType × String) :=
  [('π', .MATH_PI, "pi"), ('ℯ', .MATH_E, "e"), ('φ', .MATH_PHI, "phi"),
   ('∞', .MATH_INFINITY, "infinity")]

def MATHEMATICAL_OPERATORS : List (Char × TokenType × String) :=
  [('×', .MULTIPLY_UNICODE, "times"), ('÷', .DIVIDE_UNICODE, "divide"),
   ('−', .MINUS_UNICODE, "minus"), ('±', .PLUS_MINUS, "plus_minus"),
   ('√', .SQRT, "square_root"), ('→', .ARROW_RIGHT, "arrow_right"),
   ('←', .ARROW_LEFT, "arrow_left"), ('⇒', .ARROW_DOUBLE, "arrow_double"),
   ('↔', .ARROW_LEFT_RIGHT, "arrow_bidirectional"),
   ('≤', .LESS_EQUAL_UNICODE, "less_equal"),
   ('≥', .GREATER_EQUAL_UNICODE, "greater_equal"),
   ('≠', .NOT_EQUAL_UNICODE, "not_equal"), ('≈', .APPROXIMATELY, "approximately"),
   ('∝', .PROPORTIONAL, "proportional"), ('∈', .ELEMENT_OF, "element_of"),
   ('∉', .NOT_ELEMENT_OF, "not_element_of"), ('⊂', .SUBSET, "subset"),
   ('⊃', .SUPERSET, "superset"), ('∪', .UNION, "union"),
   ('∘', .COMPOSITION, "composition"), ('⊙', .BINARY_COMPOSITION, "binary_composition"),
   ('λ', .LAMBDA, "lambda"), ('∩', .INTERSECTION, "intersection"),
   ('∅', .EMPTY_SET, "empty_set"), ('∑', .SUMMATION, "summation"),
   ('∏', .PRODUCT, "product"), ('∫', .INTEGRAL, "integral"),
   ('∂', .PARTIAL_OP, "partial"), ('∇', .NABLA, "nabla"), ('Δ', .DELTA, "delta"),
   ('⁰', .SUPERSCRIPT_NUMBER, "0"), ('¹', .SUPERSCRIPT_NUMBER, "1"),
   ('²', .SUPERSCRIPT_NUMBER, "2"), ('³', .SUPERSCRIPT_NUMBER, "3"),
   ('⁴', .SUPERSCRIPT_NUMBER, "4"), ('⁵', .SUPERSCRIPT_NUMBER, "5"),
   ('⁶', .SUPERSCRIPT_NUMBER, "6"), ('⁷', .SUPERSCRIPT_NUMBER, "7"),
   ('⁸', .SUPERSCRIPT_NUMBER, "8"), ('⁹', .SUPERSCRIPT_NUMBER, "9"),
   ('₀', .SUBSCRIPT_NUMBER, "0"), ('₁', .SUBSCRIPT_NUMBER, "1"),
   ('₂', .SUBSCRIPT_NUMBER, "2"), ('₃', .SUBSCRIPT_NUMBER, "3"),
   ('₄', .SUBSCRIPT_NUMBER, "4"), ('₅', .SUBSCRIPT_NUMBER, "5"),
   ('₆', .SUBSCRIPT_NUMBER, "6"), ('₇', .SUBSCRIPT_NUMBER, "7"),
   ('₈', .SUBSCRIPT_NUMBER, "8"), ('₉', .SUBSCRIPT_NUMBER, "9")]

def lexKeywords : List (String × TokenType) :=
  [("let", .LET), ("const", .CONST), ("var", .VAR), ("function", .FUNCTION),
   ("fast", .FAST), ("class", .CLASS), ("struct", .STRUCT), ("if", .IF),
   ("else", .ELSE), ("for", .FOR), ("while", .WHILE), ("do", .DO),
   ("break", .BREAK), ("continue", .CONTINUE), ("return", .RETURN),
   ("try", .TRY), ("catch", .CATCH), ("finally", .FINALLY), ("throw", .THROW),
   ("new", .NEW), ("this", .THIS), ("extends", .EXTENDS), ("static", .STATIC),
   ("true", .TRUE), ("false", .FALSE), ("null", .NULL), ("undefined", .UNDEFINED),
   ("of", .OF), ("in", .IN), ("instanceof", .INSTANCEOF), ("typeof", .TYPEOF),
   ("void", .VOID), ("delete", .DELETE), ("async", .ASYNC), ("await", .AWAIT),
   ("yield", .YIELD), ("import", .IMPORT), ("export", .EXPORT), ("from", .FROM),
   ("default", .DEFAULT), ("as", .AS),
   ("neural", .NEURAL), ("tensor", .TENSOR), ("simd", .SIMD),
   ("parallel", .PARALLEL), ("cpu_friendly", .CPU_FRIENDLY),
   ("match", .MATCH), ("when", .WHEN),
   ("int8", .INT8), ("int16", .INT16), ("int32", .INT32), ("int64", .INT64),
   ("uint8", .UINT8), ("uint16", .UINT16), ("uint32", .UINT32), ("uint64", .UINT64),
   ("float32", .FLOAT32), ("float64", .FLOAT64), ("real", .REAL), ("complex", .COMPLEX)]

def lookupMathConstant (c : Char) : Option (TokenType × String) :=
  (MATHEMATICAL_CONSTANTS.find? (fun e => e.1 = c)).map (fun e => e.2)

def lookupMathOperator (c : Char) : Option (TokenType × String) :=
  (MATHEMATICAL_OPERATORS.find? (fun e => e.1 = c)).map (fun e => e.2)

def lookupKeyword (s : String) : TokenType :=
  match lexKeywords.find? (fun e => e.1 = s) with
  | some e => e.2
  | none => .IDENTIFIER

/-- add_token: the stored column is `self.column - len(text)` where `column`
is the column after the token's characters were consumed. -/
def mkTok (t : TokenType) (text : String) (line col : Int)
    (un : Option String := none) : Token :=
  ⟨t, text, line, col - (text.length : Int), un⟩

/-! ## Scanners (methods of EnhancedLexer), structural on the remaining input -/

/-- The repeated `while peek satisfies p: advance()` pattern: the longest
prefix satisfying `p`, and the rest. -/
def spanP (p : Char → Bool) : List Char → List Char × List Char
  | [] => ([], [])
  | c :: rest =>
    if p c then
      let r := spanP p rest
      (c :: r.1, r.2)
    else ([], c :: rest)

/-- Escape alphabet of `_scan_string`. -/
def stringEscape (e : Char) : Char :=
  match e with
  | 'n' => '\n' | 'r' => '\r' | 't' => '\t' | '\\' => '\\'
  | '"' => '"' | '\'' => '\'' | '`' => '`'
  | other => other

/-- Escape alphabet of `_scan_template_string`. -/
def templateEscape (e : Char) : Char :=
  match e with
  | 'n' => '\n' | 'r' => '\r' | 't' => '\t' | '\\' => '\\'
  | '`' => '`' | '$' => '$'
  | other => other

/-- Loop of `_scan_string` (the opening quote is already consumed): returns
the unescaped value, the updated position and the input after the closing
quote. -/
def scanStringLoop (q : Char) : List Char → Int → Int → List Char →
    Except LexerError (String × Int × Int × List Char)
  | [], line, col, _ => .error ⟨"Unterminated string literal", line, col⟩
  | c :: rest, line, col, acc =>
    if c = q then .ok (String.mk acc.reverse, line, col + 1, rest)
    else
      let line2 := if c = '\n' then line + 1 else line
      let col2 : Int := if c = '\n' then 1 else col
      if c = '\\' then
        match rest with
        | [] => .error ⟨"Unterminated string literal", line2, col2 + 1⟩
        | e :: rest2 => scanStringLoop q rest2 line2 (col2 + 2) (stringEscape e :: acc)
      else scanStringLoop q rest line2 (col2 + 1) (c :: acc)

/-- Scanning mode inside `_scan_template_string`: collecting literal text, or
collecting the raw source text of a `$\x7b...\x7d` interpolation (the Python
source expresses the second mode as a nested while loop). -/
inductive TmplMode where
  | text
  | expr (braceCount : Nat) (acc : List Char)

/-- Loop of `_scan_template_string` (the opening backtick is already
consumed).  `sawExpr` says whether an interpolation was emitted before;
`value` is the pending literal text (reversed). -/
def scanTemplateLoop : List Char → TmplMode → List Token → Bool → List Char →
    Int → Int → Except LexerError (List Token × Int × Int × List Char)
  | [], _, _, _, _, line, col => .error ⟨"Unterminated template string", line, col⟩
  | c :: rest, .expr bc acc, toks, sawExpr, value, line, col =>
    if c = '{' then
      scanTemplateLoop rest (.expr (bc + 1) (c :: acc)) toks sawExpr value line (col + 1)
    else if c = '}' then
      if bc ≤ 1 then
        let text := String.mk acc.reverse
        scanTemplateLoop rest .text
          (toks ++ [mkTok .TEMPLATE_EXPRESSION text line (col + 1)])
          true value line (col + 1)
      else
        scanTemplateLoop rest (.expr (bc - 1) (c :: acc)) toks sawExpr value line (col + 1)
    else
      scanTemplateLoop rest (.expr bc (c :: acc)) toks sawExpr value line (col + 1)
  | c :: rest, .text, toks, sawExpr, value, line, col =>
    if c = '`' then
      let text := String.mk value.reverse
      let final :=
        if sawExpr then mkTok .TEMPLATE_END text line (col + 1)
        else mkTok .TEMPLATE_STRING text line (col + 1)
      .ok (toks ++ [final], line, col + 1, rest)
    else if c = '$' ∧ rest.head? = some '{' then
      let toks2 :=
        if value ≠ [] then
          let text := String.mk value.reverse
          if sawExpr then toks ++ [mkTok .TEMPLATE_MIDDLE text line col]
          else toks ++ [mkTok .TEMPLATE_START text line col]
        else toks
      match rest with
      | _ :: rest2 =>
        scanTemplateLoop rest2 (.expr 1 []) toks2 sawExpr [] line (col + 2)
      | [] => .error ⟨"Unterminated template string", line, col⟩
    else if c = '\n' then
      scanTemplateLoop rest .text toks sawExpr (c :: value) (line + 1) 1
    else if c = '\\' then
      match rest with
      | [] => .error ⟨"Unterminated template string", line, col + 1⟩
      | e :: rest2 =>
        scanTemplateLoop rest2 .text toks sawExpr (templateEscape e :: value) line (col + 2)
    else
      scanTemplateLoop rest .text toks sawExpr (c :: value) line (col + 1)

/-- `_scan_line_comment`: discard until (but not including) the newline. -/
def scanLineComment (rest : List Char) (col : Int) : Int × List Char :=
  let s := spanP (fun c => decide (c ≠ '\n')) rest
  (col + (s.1.length : Int), s.2)

/-- Loop of `_scan_block_comment` (the leading asterisk is already consumed).
Reaching the end of input without a closing delimiter is not an error. -/
def scanBlockCommentLoop : List Char → Int → Int → Int × Int × List Char
  | [], line, col => (line, col, [])
  | '*' :: '/' :: rest, line, col => (line, col + 2, rest)
  | c :: rest, line, col =>
    let line2 := if c = '\n' then line + 1 else line
    let col2 : Int := if c = '\n' then 1 else col
    scanBlockCommentLoop rest line2 (col2 + 1)

/-- Integer-and-decimal part of `_scan_number`: the consumed characters
(including the already-consumed first digit), the updated column, and the
rest. -/
def scanNumberMantissa (first : Char) (rest : List Char) (col : Int) :
    List Char × Int × List Char :=
  let s1 := spanP pyIsDigit rest
  let intPart := first :: s1.1
  let col1 := col + (s1.1.length : Int)
  match s1.2 with
  | '.' :: r2 =>
    if (r2.head?.map pyIsDigit).getD false then
      let s2 := spanP pyIsDigit r2
      (intPart ++ '.' :: s2.1, col1 + 1 + (s2.1.length : Int), s2.2)
    else (intPart, col1, s1.2)
  | other => (intPart, col1, other)

/-- Optional sign after the exponent marker of `_scan_number`. -/
def scanNumberSign (chars : List Char) (e : Char) (col2 : Int) (r4 : List Char) :
    List Char × Int × List Char :=
  match r4 with
  | sgn :: r5 =>
    if sgn = '+' ∨ sgn = '-' then (chars ++ [e, sgn], col2 + 2, r5)
    else (chars ++ [e], col2 + 1, r4)
  | [] => (chars ++ [e], col2 + 1, r4)

/-- `_scan_number` (the first digit is already consumed; `col` is the column
after it).  The digit predicate is Python's `isdigit`, so superscript and
subscript digit characters are swallowed into the number's lexeme. -/
def scanNumber (first : Char) (rest : List Char) (line col : Int) :
    Except LexerError (Token × Int × List Char) :=
  let m := scanNumberMantissa first rest col
  let chars := m.1
  let col2 := m.2.1
  match m.2.2 with
  | e :: r4 =>
    if e = 'e' ∨ e = 'E' then
      let signed := scanNumberSign chars e col2 r4
      let chars2 := signed.1
      let col3 := signed.2.1
      let r6 := signed.2.2
      if (r6.head?.map pyIsDigit).getD false then
        let s3 := spanP pyIsDigit r6
        let text := String.mk (chars2 ++ s3.1)
        .ok (mkTok .NUMBER text line (col3 + (s3.1.length : Int)), line, s3.2)
      else .error ⟨"Invalid scientific notation", line, col3⟩
    else .ok (mkTok .NUMBER (String.mk chars) line col2, line, e :: r4)
  | [] => .ok (mkTok .NUMBER (String.mk chars) line col2, line, [])

/-- `_scan_identifier` (the first character is already consumed). -/
def scanIdent (first : Char) (rest : List Char) (line col : Int) :
    Token × Int × List Char :=
  let s := spanP pyIdentCont rest
  let text := String.mk (first :: s.1)
  let col2 := col + (s.1.length : Int)
  (mkTok (lookupKeyword text) text line col2, col2, s.2)

/-- `_scan_mathematical_unicode`: for superscript/subscript digits the token
value is the numeric digit and `unicode_name` the glyph; otherwise the value
is the glyph and `unicode_name` the symbolic name. -/
def scanMathUnicode (c : Char) (line col : Int) : Option Token :=
  match lookupMathConstant c with
  | some (t, name) => some (mkTok t (String.mk [c]) line col name)
  | none =>
    match lookupMathOperator c with
    | some (t, name) =>
      if t = .SUPERSCRIPT_NUMBER ∨ t = .SUBSCRIPT_NUMBER then
        some (mkTok t name line col (String.mk [c]))
      else
        some (mkTok t (String.mk [c]) line col name)
    | none => none

/-- `_scan_ascii_operator` (returns none where the Python method returns
False).  `c` is the already-consumed lead character, `col` the column after
it. -/
def scanAsciiOperator (c : Char) (rest : List Char) (line col : Int) :
    Option (Token × Int × List Char) :=
  match c, rest with
  | '=', '=' :: '=' :: r => some (mkTok .STRICT_EQUAL "===" line (col + 2), col + 2, r)
  | '=', '=' :: r => some (mkTok .EQUAL "==" line (col + 1), col + 1, r)
  | '=', '>' :: r => some (mkTok .ARROW "=>" line (col + 1), col + 1, r)
  | '=', r => some (mkTok .ASSIGN "=" line col, col, r)
  | '!', '=' :: '=' :: r => some (mkTok .STRICT_NOT_EQUAL "!==" line (col + 2), col + 2, r)
  | '!', '=' :: r => some (mkTok .NOT_EQUAL "!=" line (col + 1), col + 1, r)
  | '!', r => some (mkTok .NOT "!" line col, col, r)
  | '<', '=' :: r => some (mkTok .LESS_EQUAL "<=" line (col + 1), col + 1, r)
  | '<', r => some (mkTok .LESS "<" line col, col, r)
  | '>', '=' :: r => some (mkTok .GREATER_EQUAL ">=" line (col + 1), col + 1, r)
  | '>', r => some (mkTok .GREATER ">" line col, col, r)
  | '+', '=' :: r => some (mkTok .PLUS_ASSIGN "+=" line (col + 1), col + 1, r)
  | '+', '+' :: r => some (mkTok .INCREMENT "++" line (col + 1), col + 1, r)
  | '+', r => some (mkTok .PLUS "+" line col, col, r)
  | '-', '=' :: r => some (mkTok .MINUS_ASSIGN "-=" line (col + 1), col + 1, r)
  | '-', '-' :: r => some (mkTok .DECREMENT "--" line (col + 1), col + 1, r)
  | '-', r => some (mkTok .MINUS "-" line col, col, r)
  | '*', '=' :: r => some (mkTok .MULTIPLY_ASSIGN "*=" line (col + 1), col + 1, r)
  | '*', '*' :: r => some (mkTok .POWER "**" line (col + 1), col + 1, r)
  | '*', r => some (mkTok .MULTIPLY "*" line col, col, r)
  | '&', '&' :: r => some (mkTok .LOGICAL_AND "&&" line (col + 1), col + 1, r)
  | '&', r => some (mkTok .AND "&" line col, col, r)
  | '|', '|' :: r => some (mkTok .LOGICAL_OR "||" line (col + 1), col + 1, r)
  | '|', r => some (mkTok .OR "|" line col, col, r)
  | '/', '=' :: r => some (mkTok .DIVIDE_ASSIGN "/=" line (col + 1), col + 1, r)
  | '/', r => some (mkTok .DIVIDE "/" line col, col, r)
  | '%', r => some (mkTok .MODULO "%" line col, col, r)
  | '^', r => some (mkTok .POWER "^" line col, col, r)
  | _, _ => none

def punctuationMap (c : Char) : Option TokenType :=
  match c with
  | '(' => some .LEFT_PAREN | ')' => some .RIGHT_PAREN
  | '{' => some .LEFT_BRACE | '}' => some .RIGHT_BRACE
  | '[' => some .LEFT_BRACKET | ']' => some .RIGHT_BRACKET
  | ',' => some .COMMA | '.' => some .DOT | ';' => some .SEMICOLON
  | ':' => some .COLON | '?' => some .QUESTION | '!' => some .EXCLAMATION
  | _ => none

def hexDigitChar (n : Nat) : Char :=
  if n < 10 then Char.ofNat ('0'.toNat + n)
  else Char.ofNat ('A'.toNat + (n - 10))

/-- Uppercase hexadecimal rendering of a code point, at least four digits
(Python `f"U+\x7bord(c):04X\x7d"`). -/
def hexStr (n : Nat) : String :=
  let rec go (n : Nat) (acc : List Char) : List Char :=
    match n with
    | 0 => acc
    | m + 1 => go ((m + 1) / 16) (hexDigitChar ((m + 1) % 16) :: acc)
  let ds := go n []
  let ds := if ds = [] then ['0'] else ds
  let pad := if ds.length < 4 then List.replicate (4 - ds.length) '0' else []
  String.mk (pad ++ ds)

/-- Description of an unexpected character.  For non-ASCII characters the
Python source prefers the unicodedata character name and falls back to the
code point; the embedding always uses the code point form. -/
def unexpectedCharDesc (c : Char) : String :=
  if c.toNat > 127 then
    "\x27" ++ String.mk [c] ++ "\x27 (Unicode: U+" ++ hexStr c.toNat ++ ")"
  else
    "\x27" ++ String.mk [c] ++ "\x27"

/-- `scan_token`: `c` is the character just consumed by `advance()`, `rest`
the input after it, `col` the column after consuming `c`.  Returns the
emitted tokens (possibly none, possibly several for a template literal) and
the rest of the input. -/
def scanToken (c : Char) (rest : List Char) (line col : Int) :
    Except LexerError (List Token × Int × Int × List Char) :=
  if c = ' ' ∨ c = '\r' ∨ c = '\t' then .ok ([], line, col, rest)
  else if c = '\n' then
    .ok ([mkTok .NEWLINE "\n" line col], line + 1, 1, rest)
  else if c = '/' then
    match rest with
    | '/' :: _ =>
      let r := scanLineComment rest col
      .ok ([], line, r.1, r.2)
    | '*' :: r2 =>
      let r := scanBlockCommentLoop r2 line (col + 1)
      .ok ([], r.1, r.2.1, r.2.2)
    | _ => .ok ([mkTok .DIVIDE "/" line col], line, col, rest)
  else if c = '`' then
    match scanTemplateLoop rest .text [] false [] line col with
    | .error e => .error e
    | .ok (toks, line2, col2, r2) => .ok (toks, line2, col2, r2)
  else if c = '"' ∨ c = '\'' then
    match scanStringLoop c rest line col [] with
    | .error e => .error e
    | .ok (value, line2, col2, r2) =>
      .ok ([mkTok .STRING value line2 col2], line2, col2, r2)
  else if (lookupMathConstant c).isSome ∨ (lookupMathOperator c).isSome then
    match scanMathUnicode c line col with
    | some tok => .ok ([tok], line, col, rest)
    | none => .error ⟨"Unexpected character " ++ unexpectedCharDesc c, line, col⟩
  else if pyIsDigit c then
    match scanNumber c rest line col with
    | .error e => .error e
    | .ok (tok, line2, r2) => .ok ([tok], line2, tok.column + (tok.value.length : Int), r2)
  else if c = '|' then
    match rest with
    | '>' :: r => .ok ([mkTok .PIPELINE "|>" line (col + 1)], line, col + 1, r)
    | '|' :: r => .ok ([mkTok .LOGICAL_OR "||" line (col + 1)], line, col + 1, r)
    | _ => .ok ([mkTok .OR "|" line col], line, col, rest)
  else if c = '<' ∧ rest.head? = some '|' then
    match rest with
    | _ :: r => .ok ([mkTok .REVERSE_PIPELINE "<|" line (col + 1)], line, col + 1, r)
    | [] => .ok ([], line, col, rest)
  else if c = '.' ∧ rest.head? = some '.' then
    match rest with
    | _ :: '.' :: r => .ok ([mkTok .DOT_DOT_DOT "..." line (col + 2)], line, col + 2, r)
    | _ :: r => .ok ([mkTok .RANGE_INCLUSIVE ".." line (col + 1)], line, col + 1, r)
    | [] => .ok ([], line, col, rest)
  else
    match scanAsciiOperator c rest line col with
    | some (tok, col2, r2) => .ok ([tok], line, col2, r2)
    | none =>
      match punctuationMap c with
      | some t => .ok ([mkTok t (String.mk [c]) line col], line, col, rest)
      | none =>
        if c.isAlpha ∨ c = '_' ∨ c = '$' then
          let r := scanIdent c rest line col
          .ok ([r.1], line, r.2.1, r.2.2)
        else
          .error ⟨"Unexpected character " ++ unexpectedCharDesc c, line, col⟩

/-- Driver loop of `tokenize` (fuelled; `none` is fuel exhaustion, proved
unreachable below when the fuel exceeds the length of the remaining input). -/
def tokenizeLoop : Nat → List Char → Int → Int → List Token →
    Option (Except LexerError (List Token × Int × Int))
  | 0, _, _, _, _ => none
  | n + 1, rest, line, col, toks =>
    match rest with
    | [] => some (.ok (toks, line, col))
    | c :: r =>
      match scanToken c r line (col + 1) with
      | .error e => some (.error e)
      | .ok (newToks, line2, col2, r2) => tokenizeLoop n r2 line2 col2 (toks ++ newToks)

/-- `EnhancedLexer.tokenize` before resolving fuel: either a lexer error, or
the token list terminated by the EOF token (at the final position). -/
def tokenizeCore (source : String) : Option (Except LexerError (List Token)) :=
  match tokenizeLoop (source.length + 1) source.toList 1 1 [] with
  | none => none
  | some (.error e) => some (.error e)
  | some (.ok (toks, line, col)) => some (.ok (toks ++ [⟨.EOF, "", line, col, none⟩]))

def fuelLexError : LexerError := ⟨"INTERNAL: fuel exhausted", -1, -1⟩

/-- `tokenize_source` / `EnhancedLexer.tokenize`. -/
def tokenize (source : String) : Except LexerError (List Token) :=
  (tokenizeCore source).getD (.error fuelLexError)

/-! ## Parser data model (enhanced_parser.py: AST dataclasses, ParseError) -/

/-- Values stored in `Literal` nodes.  Python stores str / int / float /
bool / None; a float is kept as its source text (the pipeline evaluated here
never prints a float back, so Python's float formatting is not modelled). -/
inductive LitValue where
  | str (s : String)
  | int (n : Int)
  | float (raw : String)
  | bool (b : Bool)
  | null
  deriving DecidableEq

/-- The AST node dataclasses of enhanced_parser.py, folded into a single
inductive type.  Field order and defaults follow the Python dataclasses;
`Parameter.is_rest` models the attribute set dynamically by
`parse_parameter_list` on rest parameters. -/
inductive Node where
  | Program (statements : List Node)
  | VariableDeclaration (kind : String) (declarations : List Node)
  | VariableDeclarator (id : Node) (init : Option Node) (typeAnn : Option String)
  | FunctionDeclaration (name : String) (parameters : List Node) (body : Node)
      (returnType : Option String) (is_mathematical : Bool) (is_arrow : Bool)
  | ArrowFunctionExpression (parameters : List Node) (body : Node)
  | Parameter (name : String) (typeAnn : Option String) (defaultValue : Option Node)
      (is_rest : Bool)
  | IfStatement (test : Node) (consequent : Node) (alternate : Option Node)
  | ForStatement (init : Option Node) (test : Option Node) (update : Option Node)
      (body : Node)
  | ForOfStatement (left : Node) (right : Node) (body : Node)
  | WhileStatement (test : Node) (body : Node)
  | TryStatement (block : Node) (handler : Option Node) (finalizer : Option Node)
  | CatchClause (param : Option Node) (body : Node)
  | ClassDeclaration (name : String) (superclass : Option Node) (body : List Node)
  | MethodDefinition (key : Node) (value : Node) (kind : String) (static : Bool)
  | NewExpression (callee : Node) (arguments : List Node)
  | BlockStatement (statements : List Node)
  | ExpressionStatement (expression : Node)
  | ReturnStatement (argument : Option Node)
  | BreakStatement
  | ContinueStatement
  | ThrowStatement (argument : Node)
  | CallExpression (callee : Node) (arguments : List Node)
  | MemberExpression (obj : Node) (property : Node) (computed : Bool)
  | AssignmentExpression (left : Node) (operator : String) (right : Node)
  | BinaryExpression (left : Node) (operator : String) (right : Node)
  | UnaryExpression (operator : String) (argument : Node)
  | UpdateExpression (operator : String) (argument : Node) (isPre : Bool)
  | ConditionalExpression (test : Node) (consequent : Node) (alternate : Node)
  | Identifier (name : String) (subscript : Option String)
  | Literal (value : LitValue)
  | ArrayExpression (elements : List (Option Node))
  | ObjectExpression (properties : List Node)
  | Property (key : Node) (value : Node) (kind : String) (method : Bool)
      (shorthand : Bool) (computed : Bool)
  | TemplateLiteral (quasis : List Node) (expressions : List Node)
  | TemplateElement (value : String) (tail : Bool)
  | SpreadElement (argument : Node)
  | RestElement (argument : Node)
  | ArrayPattern (elements : List (Option Node))
  | ObjectPattern (properties : List Node)
  | AssignmentPattern (left : Node) (right : Node)

/-- Errors inside the parser: Python `ParseError`, any other Python
exception (`ValueError`, `AttributeError`, ...; carried with its `str`), and
fuel exhaustion of the embedding (proved away or avoided by construction
where it matters). -/
inductive PErr where
  | parse (message : String)
  | py (message : String)
  | fuel
  deriving DecidableEq

/-- Parser state: the fields of EnhancedParser (the unused scope_stack is
omitted). -/
structure PState where
  tokens : List Token
  current : Nat
  in_function : Bool
  in_loop : Bool
  in_class : Bool
  deriving DecidableEq

/-- Token returned by `peek` when the cursor is out of range:
`Token(TokenType.EOF, "", self.current, self.current)`. -/
def eofTokenAt (n : Nat) : Token := ⟨.EOF, "", (n : Int), (n : Int), none⟩

def peekT (st : PState) : Token := st.tokens.getD st.current (eofTokenAt st.current)

def isAtEnd (st : PState) : Bool :=
  decide (st.current ≥ st.tokens.length) || (peekT st).type = .EOF

def previousT (st : PState) : Token :=
  if st.current > 0 then st.tokens.getD (st.current - 1) (eofTokenAt 0)
  else st.tokens.getD 0 (eofTokenAt 0)

/-- `check`: false at end of input (hence also on the EOF token itself). -/
def checkT (st : PState) (tt : TokenType) : Bool :=
  if isAtEnd st then false else (peekT st).type = tt

def advanceT (st : PState) : Token × PState :=
  if isAtEnd st then (previousT st, st)
  else
    let st2 := { st with current := st.current + 1 }
    (previousT st2, st2)

def matchT (st : PState) (tt : TokenType) : Bool × PState :=
  if checkT st tt then (true, (advanceT st).2) else (false, st)

def matchAny (st : PState) : List TokenType → Bool × PState
  | [] => (false, st)
  | t :: rest => if checkT st t then (true, (advanceT st).2) else matchAny st rest

def checkAny (st : PState) (tts : List TokenType) : Bool := tts.any (checkT st)

def peekAhead (st : PState) (d : Nat) : Option Token := st.tokens.get? (st.current + d)

def checkStatementTerminator (st : PState) : Bool :=
  checkAny st [.NEWLINE, .SEMICOLON, .EOF]

def consumeStatementTerminator (st : PState) : PState :=
  (matchAny st [.SEMICOLON, .NEWLINE]).2

/-- `consume`: advance past an expected token or raise a ParseError naming
the expected kind, the received kind and the offending lexeme. -/
def consume (st : PState) (tt : TokenType) (msg : String) :
    Except PErr (Token × PState) :=
  if checkT st tt then .ok (advanceT st)
  else
    let cur := peekT st
    .error (.parse (msg ++ ". Got " ++ ttName cur.type ++ ": \x27" ++ cur.value ++ "\x27"))

def typeTokens : List TokenType :=
  [.INT8, .INT16, .INT32, .INT64, .UINT8, .UINT16, .UINT32, .UINT64,
   .FLOAT32, .FLOAT64, .REAL, .COMPLEX]

/-- `is_type_token` / `check_type_token`. -/
def isTypeToken (st : PState) : Bool := checkAny st typeTokens

/-- The paren-matching scans of `is_mathematical_function` and
`is_arrow_function`: from index `i` with open-paren count `pc`, walk to the
index just past the matching close paren (or the end).  The fuel is always
called with more than the token-list length, which bounds the iterations. -/
def parenScan (tokens : List Token) : Nat → Nat → Nat → Nat
  | 0, i, _ => i
  | fuel + 1, i, pc =>
    if i < tokens.length ∧ 0 < pc then
      let t := tokens.getD i (eofTokenAt i)
      let pc2 := if t.type = .LEFT_PAREN then pc + 1
                 else if t.type = .RIGHT_PAREN then pc - 1 else pc
      parenScan tokens fuel (i + 1) pc2
    else i

/-- `is_mathematical_function`: IDENTIFIER followed by a parenthesized
region followed by `=`. -/
def is_mathematical_function (st : PState) : Bool :=
  if ¬ checkT st .IDENTIFIER then false
  else
    match peekAhead st 1 with
    | none => false
    | some t1 =>
      if t1.type ≠ .LEFT_PAREN then false
      else
        let i := parenScan st.tokens (st.tokens.length + 1) (st.current + 2) 1
        match st.tokens.get? i with
        | some t => t.type = .ASSIGN
        | none => false

/-- `is_arrow_function`: called from `parse_primary_expression` after the
opening paren was consumed.  The Python method indexes `self.tokens` at the
cursor without a bounds check, so at the very end of the token list it
raises an IndexError. -/
def is_arrow_function (st : PState) : Except PErr Bool :=
  if st.current < st.tokens.length then
    let t0 := st.tokens.getD st.current (eofTokenAt 0)
    let i :=
      if t0.type = .LEFT_PAREN then
        parenScan st.tokens (st.tokens.length + 1) (st.current + 1) 1
      else st.current
    .ok (match st.tokens.get? i with
         | some t => t.type = .ARROW
         | none => false)
  else .error (.py "list index out of range")

/-- `_is_for_of_pattern`: a pure lookahead; the Python method saves the
cursor and restores it in a finally block, so it never moves the cursor. -/
def isForOfPattern (st : PState) : Bool :=
  let st1 := if checkAny st [.LET, .CONST, .VAR] then (advanceT st).2 else st
  if ¬ checkT st1 .IDENTIFIER then false
  else checkT (advanceT st1).2 .OF

/-! ## Python value helpers -/

/-- Python `int(s)` on a number lexeme (no sign, no surrounding space in
this pipeline): all characters must be ASCII decimal digits; in particular
superscript or subscript digit characters make it raise. -/
def pyIntParse (s : String) : Option Int :=
  let cs := s.toList
  if cs ≠ [] ∧ cs.all Char.isDigit then
    some (cs.foldl (fun a c => a * 10 + ((c.toNat - '0'.toNat : Nat) : Int)) 0)
  else none

/-- Python `float(s)` acceptance on the lexemes this pipeline produces:
`digits [. digits] [e|E [+|-] digits]` with at least one mantissa digit.
Characters outside that alphabet (such as superscript digits) are rejected. -/
def pyFloatOk (s : String) : Bool :=
  let cs := s.toList
  let s1 := spanP Char.isDigit cs
  let afterDec :=
    match s1.2 with
    | '.' :: r => let s2 := spanP Char.isDigit r; (decide (s1.1 ≠ [] ∨ s2.1 ≠ []), s2.2)
    | _ => (decide (s1.1 ≠ []), s1.2)
  let mantissaOk := afterDec.1
  match afterDec.2 with
  | [] => mantissaOk
  | e :: r =>
    if e = 'e' ∨ e = 'E' then
      let r2 := match r with
                | sgn :: r3 => if sgn = '+' ∨ sgn = '-' then r3 else r
                | [] => r
      let s3 := spanP Char.isDigit r2
      mantissaOk && decide (s3.1 ≠ []) && decide (s3.2 = [])
    else false

def pyFloatErrMsg (s : String) : String :=
  "could not convert string to float: \x27" ++ s ++ "\x27"

/-- Python `str.isidentifier` restricted to ASCII (template-interpolation
texts in this pipeline are ASCII). -/
def pyIsIdentifier (s : String) : Bool :=
  match s.toList with
  | [] => false
  | c :: rest => (c.isAlpha || c = '_') && rest.all (fun d => d.isAlphanum || d = '_')

/-- Python `str.strip()` (whitespace strip). -/
def pyStrip (s : String) : String :=
  String.mk (((s.data.dropWhile Char.isWhitespace).reverse.dropWhile
    Char.isWhitespace).reverse)

/-- Python `str(value)` of a literal value (used for method names built
from non-identifier keys). -/
def litValStr : LitValue → String
  | .str s => s
  | .int n => toString n
  | .float raw => raw
  | .bool b => if b then "True" else "False"
  | .null => "None"

/-! ## Parser engine

Each parsing method of EnhancedParser becomes a helper definition; the
recursion between them is tied by a single fuelled dispatcher `runP` over a
request type.  While-loops inside methods become loop requests carrying
their accumulator. -/

inductive Req where
  | program (acc : List Node)
  | stmt
  | stmtCore
  | varDeclLoop (kind : String) (acc : List Node)
  | ifStmt
  | forStmt
  | forOf
  | forTrad
  | whileStmt
  | tryStmt
  | funcDecl
  | classDecl
  | classBody (name : String) (sup : Option Node) (old : Bool) (acc : List Node)
  | methodDef
  | mathFunc
  | paramListLoop (acc : List Node)
  | blockStmt
  | blockBody (acc : List Node)
  | returnStmt
  | breakStmt
  | continueStmt
  | throwStmt
  | exprStmt
  | exprR
  | exprCtx (ctx : String)
  | assignExpr
  | assignParamsLoop (acc : List Node)
  | condExpr
  | orExpr
  | orLoop (left : Node)
  | andExpr
  | andLoop (left : Node)
  | eqExpr
  | eqLoop (left : Node)
  | relExpr
  | relLoop (left : Node)
  | addExpr
  | addLoop (left : Node)
  | mulExpr
  | mulLoop (left : Node)
  | unaryExpr
  | postfixExpr
  | callExpr
  | callLoop (e : Node)
  | argListLoop (acc : List Node)
  | primary
  | templateLit (first : Token)
  | templateLoop (quasis : List Node) (exprs : List Node)
  | arrayExprLoop (acc : List (Option Node))
  | objectExprLoop (acc : List Node)
  | property
  | arrowFn
  | memberForNew
  | memberForNewLoop (e : Node)
  | arrayPat
  | arrayPatLoop (acc : List (Option Node))
  | objectPat
  | objectPatLoop (acc : List Node)
  | typeAnn
  | typeAnnArgs (base : String) (acc : List String)

inductive PVal where
  | vnode (a : Node)
  | vnodes (a : List Node)
  | vopts (a : List (Option Node))
  | vstr (a : String)

abbrev PRes := Except PErr (PVal × PState)
abbrev Eng := Req → PState → PRes

def runNode (nxt : Eng) (r : Req) (st : PState) : Except PErr (Node × PState) := do
  let (v, st2) ← nxt r st
  match v with
  | .vnode a => .ok (a, st2)
  | _ => .error (.py "internal: expected node")

def runNodes (nxt : Eng) (r : Req) (st : PState) : Except PErr (List Node × PState) := do
  let (v, st2) ← nxt r st
  match v with
  | .vnodes a => .ok (a, st2)
  | _ => .error (.py "internal: expected node list")

def runOpts (nxt : Eng) (r : Req) (st : PState) :
    Except PErr (List (Option Node) × PState) := do
  let (v, st2) ← nxt r st
  match v with
  | .vopts a => .ok (a, st2)
  | _ => .error (.py "internal: expected element list")

def runStr (nxt : Eng) (r : Req) (st : PState) : Except PErr (String × PState) := do
  let (v, st2) ← nxt r st
  match v with
  | .vstr a => .ok (a, st2)
  | _ => .error (.py "internal: expected string")

/-- parse_program: skip top-level newlines, collect statements until the end. -/
def pmProgram (nxt : Eng) (acc : List Node) (st : PState) : PRes :=
  if isAtEnd st then .ok (.vnode (.Program acc), st)
  else
    let m := matchT st .NEWLINE
    if m.1 then nxt (.program acc) m.2
    else do
      let (s, st2) ← runNode nxt .stmt st
      nxt (.program (acc ++ [s])) st2

/-- parse_statement's exception handling: a ParseError is re-raised
unchanged, any other exception is wrapped. -/
def pmStatement (nxt : Eng) (st : PState) : PRes :=
  match nxt .stmtCore st with
  | .error (.py m) => .error (.parse ("Unexpected error parsing statement: " ++ m))
  | other => other

/-- parse_statement: dispatch on the statement's first token. -/
def pmStatementCore (nxt : Eng) (st : PState) : PRes :=
  let mLet := matchT st .LET
  if mLet.1 then nxt (.varDeclLoop "let" []) mLet.2 else
  let mConst := matchT st .CONST
  if mConst.1 then nxt (.varDeclLoop "const" []) mConst.2 else
  let mVar := matchT st .VAR
  if mVar.1 then nxt (.varDeclLoop "var" []) mVar.2 else
  let mIf := matchT st .IF
  if mIf.1 then nxt .ifStmt mIf.2 else
  let mFor := matchT st .FOR
  if mFor.1 then nxt .forStmt mFor.2 else
  let mWhile := matchT st .WHILE
  if mWhile.1 then nxt .whileStmt mWhile.2 else
  let mTry := matchT st .TRY
  if mTry.1 then nxt .tryStmt mTry.2 else
  let mFast := matchT st .FAST
  if mFast.1 then
    let mFn := matchT mFast.2 .FUNCTION
    if mFn.1 then nxt .funcDecl mFn.2
    else .error (.py "\x27EnhancedParser\x27 object has no attribute \x27error\x27")
  else
  let mFn := matchT st .FUNCTION
  if mFn.1 then nxt .funcDecl mFn.2 else
  let mClass := matchT st .CLASS
  if mClass.1 then nxt .classDecl mClass.2 else
  let mRet := matchT st .RETURN
  if mRet.1 then nxt .returnStmt mRet.2 else
  let mBrk := matchT st .BREAK
  if mBrk.1 then nxt .breakStmt mBrk.2 else
  let mCont := matchT st .CONTINUE
  if mCont.1 then nxt .continueStmt mCont.2 else
  let mThrow := matchT st .THROW
  if mThrow.1 then nxt .throwStmt mThrow.2 else
  if checkT st .LEFT_BRACE then nxt .blockStmt st else
  if is_mathematical_function st then nxt .mathFunc st else
  nxt .exprStmt st

/-- One iteration of the declarator loop of parse_variable_declaration. -/
def pmVarDeclLoop (nxt : Eng) (kind : String) (acc : List Node) (st : PState) :
    PRes := do
  let idTa ←
    if checkT st .IDENTIFIER then do
      let a := advanceT st
      let mColon := matchT a.2 .COLON
      if mColon.1 then do
        let (ta, st2) ← runStr nxt .typeAnn mColon.2
        pure (Node.Identifier a.1.value none, some ta, st2)
      else pure (Node.Identifier a.1.value none, (none : Option String), a.2)
    else if checkT st .LEFT_BRACKET then do
      let (p, st1) ← runNode nxt .arrayPat st
      pure (p, none, st1)
    else if checkT st .LEFT_BRACE then do
      let (p, st1) ← runNode nxt .objectPat st
      pure (p, none, st1)
    else
      .error (.parse ("Expected identifier or destructuring pattern in " ++ kind
        ++ " declaration"))
  let idNode := idTa.1
  let ta := idTa.2.1
  let st1 := idTa.2.2
  let mAssign := matchT st1 .ASSIGN
  let initRes ←
    if mAssign.1 then do
      let (e, st2) ← runNode nxt .assignExpr mAssign.2
      pure (some e, st2)
    else if kind = "const" then
      .error (.parse "const declaration must have initializer")
    else pure ((none : Option Node), st1)
  let acc2 := acc ++ [Node.VariableDeclarator idNode initRes.1 ta]
  let mComma := matchT initRes.2 .COMMA
  if mComma.1 then nxt (.varDeclLoop kind acc2) mComma.2
  else
    .ok (.vnode (.VariableDeclaration kind acc2), consumeStatementTerminator initRes.2)

/-- parse_if_statement. -/
def pmIfStatement (nxt : Eng) (st : PState) : PRes := do
  let (_, st1) ← consume st .LEFT_PAREN "Expected \x27(\x27 after \x27if\x27"
  let (test, st2) ← runNode nxt .exprR st1
  let (_, st3) ← consume st2 .RIGHT_PAREN "Expected \x27)\x27 after if condition"
  let (cons, st4) ← runNode nxt .stmt st3
  let mElse := matchT st4 .ELSE
  if mElse.1 then do
    let (alt, st5) ← runNode nxt .stmt mElse.2
    .ok (.vnode (.IfStatement test cons (some alt)), st5)
  else .ok (.vnode (.IfStatement test cons none), st4)

/-- parse_for_statement: lookahead-dispatch between for-of and the
traditional form. -/
def pmForStatement (nxt : Eng) (st : PState) : PRes := do
  let (_, st1) ← consume st .LEFT_PAREN "Expected \x27(\x27 after \x27for\x27"
  if isForOfPattern st1 then nxt .forOf st1 else nxt .forTrad st1

/-- _parse_for_of_statement. -/
def pmForOf (nxt : Eng) (st : PState) : PRes := do
  let leftRes ←
    if checkAny st [.LET, .CONST, .VAR] then do
      let a := advanceT st
      let (nTok, st2) ← consume a.2 .IDENTIFIER "Expected identifier"
      pure (Node.VariableDeclaration a.1.value
        [.VariableDeclarator (.Identifier nTok.value none) none none], st2)
    else do
      let (nTok, st1) ← consume st .IDENTIFIER "Expected identifier"
      pure (Node.Identifier nTok.value none, st1)
  let (_, st3) ← consume leftRes.2 .OF "Expected \x27of\x27 in for-of loop"
  let (right, st4) ← runNode nxt .exprR st3
  let (_, st5) ← consume st4 .RIGHT_PAREN "Expected \x27)\x27 after for-of"
  let old := st5.in_loop
  let (body, st6) ← runNode nxt .stmt { st5 with in_loop := true }
  .ok (.vnode (.ForOfStatement leftRes.1 right body), { st6 with in_loop := old })

/-- _parse_traditional_for_statement. -/
def pmForTrad (nxt : Eng) (st : PState) : PRes := do
  let initRes ←
    if ¬ checkT st .SEMICOLON then
      if checkAny st [.LET, .CONST, .VAR] then do
        let a := advanceT st
        let (nTok, st2) ← consume a.2 .IDENTIFIER "Expected variable name"
        if checkT st2 .ASSIGN then do
          let st3 := (advanceT st2).2
          let (value, st4) ← runNode nxt (.exprCtx "variable initializer") st3
          pure (some (Node.VariableDeclaration a.1.value
            [.VariableDeclarator (.Identifier nTok.value none) (some value) none]), st4)
        else
          pure (some (Node.VariableDeclaration a.1.value
            [.VariableDeclarator (.Identifier nTok.value none) none none]), st2)
      else do
        let (e, st1) ← runNode nxt (.exprCtx "for-loop initialization") st
        pure (some e, st1)
    else pure ((none : Option Node), st)
  let (_, stA) ← consume initRes.2 .SEMICOLON "Expected \x27;\x27 after for-loop initializer"
  let testRes ←
    if ¬ checkT stA .SEMICOLON then do
      let (e, st1) ← runNode nxt (.exprCtx "for-loop condition") stA
      pure (some e, st1)
    else pure ((none : Option Node), stA)
  let (_, stB) ← consume testRes.2 .SEMICOLON "Expected \x27;\x27 after for-loop condition"
  let updRes ←
    if ¬ checkT stB .RIGHT_PAREN then do
      let (e, st1) ← runNode nxt (.exprCtx "for-loop update") stB
      pure (some e, st1)
    else pure ((none : Option Node), stB)
  let (_, stC) ← consume updRes.2 .RIGHT_PAREN "Expected \x27)\x27 after for-loop clauses"
  let old := stC.in_loop
  let (body, stD) ← runNode nxt .stmt { stC with in_loop := true }
  .ok (.vnode (.ForStatement initRes.1 testRes.1 updRes.1 body),
       { stD with in_loop := old })

/-- parse_expression_with_context: re-raise a ParseError with the context
prefix (other exceptions pass through). -/
def pmExprCtx (nxt : Eng) (ctx : String) (st : PState) : PRes :=
  match nxt .exprR st with
  | .error (.parse m) => .error (.parse ("In " ++ ctx ++ ": Parse Error: " ++ m))
  | other => other

/-- parse_while_statement. -/
def pmWhile (nxt : Eng) (st : PState) : PRes := do
  let (_, st1) ← consume st .LEFT_PAREN "Expected \x27(\x27 after \x27while\x27"
  let (test, st2) ← runNode nxt .exprR st1
  let (_, st3) ← consume st2 .RIGHT_PAREN "Expected \x27)\x27 after while condition"
  let old := st3.in_loop
  let (body, st4) ← runNode nxt .stmt { st3 with in_loop := true }
  .ok (.vnode (.WhileStatement test body), { st4 with in_loop := old })

/-- parse_try_statement. -/
def pmTry (nxt : Eng) (st : PState) : PRes := do
  let (block, st1) ← runNode nxt .blockStmt st
  let mCatch := matchT st1 .CATCH
  let handlerRes ←
    if mCatch.1 then do
      let mLP := matchT mCatch.2 .LEFT_PAREN
      let paramRes ←
        if mLP.1 then
          if checkT mLP.2 .IDENTIFIER then do
            let a := advanceT mLP.2
            let (_, st3) ← consume a.2 .RIGHT_PAREN "Expected \x27)\x27 after catch parameter"
            pure (some (Node.Identifier a.1.value none), st3)
          else do
            let (_, st3) ← consume mLP.2 .RIGHT_PAREN "Expected \x27)\x27 after catch parameter"
            pure ((none : Option Node), st3)
        else pure ((none : Option Node), mCatch.2)
      let (body, st4) ← runNode nxt .blockStmt paramRes.2
      pure (some (Node.CatchClause paramRes.1 body), st4)
    else pure ((none : Option Node), st1)
  let mFin := matchT handlerRes.2 .FINALLY
  let finRes ←
    if mFin.1 then do
      let (f, st5) ← runNode nxt .blockStmt mFin.2
      pure (some f, st5)
    else pure ((none : Option Node), handlerRes.2)
  if handlerRes.1.isNone ∧ finRes.1.isNone then
    .error (.parse "Missing catch or finally after try")
  else .ok (.vnode (.TryStatement block handlerRes.1 finRes.1), finRes.2)

/-- The optional return-type annotation shared by parse_function_declaration
and parse_method_definition: a single IDENTIFIER or type token after a
colon, consumed opportunistically. -/
def pmReturnType (st : PState) : Option String × PState :=
  let mColon := matchT st .COLON
  if mColon.1 then
    if checkT mColon.2 .IDENTIFIER ∨ isTypeToken mColon.2 then
      let a := advanceT mColon.2
      (some a.1.value, a.2)
    else (none, mColon.2)
  else (none, st)

/-- parse_function_declaration. -/
def pmFuncDecl (nxt : Eng) (st : PState) : PRes := do
  let (nameTok, st1) ← consume st .IDENTIFIER "Expected function name"
  let (_, st2) ← consume st1 .LEFT_PAREN "Expected \x27(\x27 after function name"
  let (params, st3) ← runNodes nxt (.paramListLoop []) st2
  let (_, st4) ← consume st3 .RIGHT_PAREN "Expected \x27)\x27 after parameters"
  let rt := pmReturnType st4
  let old := rt.2.in_function
  let (body, st5) ← runNode nxt .blockStmt { rt.2 with in_function := true }
  .ok (.vnode (.FunctionDeclaration nameTok.value params body rt.1 false false),
       { st5 with in_function := old })

/-- parse_class_declaration (up to the body loop). -/
def pmClassDecl (nxt : Eng) (st : PState) : PRes := do
  let (nameTok, st1) ← consume st .IDENTIFIER "Expected class name"
  let mExt := matchT st1 .EXTENDS
  let supRes ←
    if mExt.1 then do
      let (sTok, st2) ← consume mExt.2 .IDENTIFIER "Expected superclass name"
      pure (some (Node.Identifier sTok.value none), st2)
    else pure ((none : Option Node), st1)
  let (_, st3) ← consume supRes.2 .LEFT_BRACE "Expected \x27\x7b\x27 before class body"
  let old := st3.in_class
  nxt (.classBody nameTok.value supRes.1 old []) { st3 with in_class := true }

/-- Body loop of parse_class_declaration. -/
def pmClassBody (nxt : Eng) (name : String) (sup : Option Node) (old : Bool)
    (acc : List Node) (st : PState) : PRes := do
  if ¬ checkT st .RIGHT_BRACE ∧ ¬ isAtEnd st then
    let mNl := matchT st .NEWLINE
    if mNl.1 then nxt (.classBody name sup old acc) mNl.2
    else do
      let (m, st2) ← runNode nxt .methodDef st
      nxt (.classBody name sup old (acc ++ [m])) st2
  else do
    let st2 := { st with in_class := old }
    let (_, st3) ← consume st2 .RIGHT_BRACE "Expected \x27\x7d\x27 after class body"
    .ok (.vnode (.ClassDeclaration name sup acc), st3)

/-- parse_method_definition. -/
def pmMethodDef (nxt : Eng) (st : PState) : PRes := do
  let mStatic := matchT st .STATIC
  let st0 := mStatic.2
  let kind :=
    if checkT st0 .IDENTIFIER ∧ (peekT st0).value = "constructor" then "constructor"
    else "method"
  let (keyTok, st1) ← consume st0 .IDENTIFIER "Expected method name"
  let (_, st2) ← consume st1 .LEFT_PAREN "Expected \x27(\x27 after method name"
  let (params, st3) ← runNodes nxt (.paramListLoop []) st2
  let (_, st4) ← consume st3 .RIGHT_PAREN "Expected \x27)\x27 after method parameters"
  let rt := pmReturnType st4
  let old := rt.2.in_function
  let (body, st5) ← runNode nxt .blockStmt { rt.2 with in_function := true }
  let func := Node.FunctionDeclaration keyTok.value params body rt.1 false false
  .ok (.vnode (.MethodDefinition (.Identifier keyTok.value none) func kind mStatic.1),
       { st5 with in_function := old })

/-- parse_mathematical_function: `f(x) = expr` becomes a FunctionDeclaration
whose body is a block holding a single return of the expression, flagged
is_mathematical. -/
def pmMathFunc (nxt : Eng) (st : PState) : PRes := do
  let (nameTok, st1) ← consume st .IDENTIFIER "Expected function name"
  let (_, st2) ← consume st1 .LEFT_PAREN "Expected \x27(\x27 after function name"
  let (params, st3) ← runNodes nxt (.paramListLoop []) st2
  let (_, st4) ← consume st3 .RIGHT_PAREN "Expected \x27)\x27 after parameters"
  let (_, st5) ← consume st4 .ASSIGN "Expected \x27=\x27 in mathematical function"
  let (e, st6) ← runNode nxt .exprR st5
  let body := Node.BlockStatement [.ReturnStatement (some e)]
  .ok (.vnode (.FunctionDeclaration nameTok.value params body none true false),
       consumeStatementTerminator st6)

/-- Loop of parse_parameter_list. -/
def pmParamListLoop (nxt : Eng) (acc : List Node) (st : PState) : PRes := do
  if ¬ checkT st .RIGHT_PAREN ∧ ¬ isAtEnd st then
    let mRest := matchT st .DOT_DOT_DOT
    if mRest.1 then do
      let (nTok, st1) ← consume mRest.2 .IDENTIFIER
        "Expected parameter name after \x27...\x27"
      .ok (.vnodes (acc ++ [Node.Parameter nTok.value none none true]), st1)
    else do
      let (nTok, st1) ← consume st .IDENTIFIER "Expected parameter name"
      let taRes ←
        (do
          let mColon := matchT st1 .COLON
          if mColon.1 then
            if checkT mColon.2 .IDENTIFIER ∨ isTypeToken mColon.2 then
              let a := advanceT mColon.2
              pure (some a.1.value, a.2)
            else pure ((none : Option String), mColon.2)
          else pure ((none : Option String), st1) : Except PErr (Option String × PState))
      let mAssign := matchT taRes.2 .ASSIGN
      let dvRes ←
        if mAssign.1 then do
          let (e, st2) ← runNode nxt .assignExpr mAssign.2
          pure (some e, st2)
        else pure ((none : Option Node), taRes.2)
      let acc2 := acc ++ [Node.Parameter nTok.value taRes.1 dvRes.1 false]
      let mComma := matchT dvRes.2 .COMMA
      if mComma.1 then nxt (.paramListLoop acc2) mComma.2
      else .ok (.vnodes acc2, dvRes.2)
  else .ok (.vnodes acc, st)

/-- parse_block_statement. -/
def pmBlockStmt (nxt : Eng) (st : PState) : PRes := do
  let (_, st1) ← consume st .LEFT_BRACE "Expected \x27\x7b\x27"
  nxt (.blockBody []) st1

/-- Statement loop of parse_block_statement. -/
def pmBlockBody (nxt : Eng) (acc : List Node) (st : PState) : PRes := do
  if ¬ checkT st .RIGHT_BRACE ∧ ¬ isAtEnd st then
    let mNl := matchT st .NEWLINE
    if mNl.1 then nxt (.blockBody acc) mNl.2
    else do
      let (s, st2) ← runNode nxt .stmt st
      nxt (.blockBody (acc ++ [s])) st2
  else do
    let (_, st2) ← consume st .RIGHT_BRACE "Expected \x27\x7d\x27"
    .ok (.vnode (.BlockStatement acc), st2)

/-- parse_return_statement: rejected outside a function. -/
def pmReturnStmt (nxt : Eng) (st : PState) : PRes := do
  if ¬ st.in_function then .error (.parse "return statement outside function")
  else
    let argRes ←
      if ¬ checkStatementTerminator st then do
        let (e, st1) ← runNode nxt .exprR st
        pure (some e, st1)
      else pure ((none : Option Node), st)
    .ok (.vnode (.ReturnStatement argRes.1), consumeStatementTerminator argRes.2)

/-- parse_break_statement: rejected outside a loop. -/
def pmBreakStmt (st : PState) : PRes :=
  if ¬ st.in_loop then .error (.parse "break statement outside loop")
  else .ok (.vnode .BreakStatement, consumeStatementTerminator st)

/-- parse_continue_statement: rejected outside a loop. -/
def pmContinueStmt (st : PState) : PRes :=
  if ¬ st.in_loop then .error (.parse "continue statement outside loop")
  else .ok (.vnode .ContinueStatement, consumeStatementTerminator st)

/-- parse_throw_statement. -/
def pmThrowStmt (nxt : Eng) (st : PState) : PRes := do
  if checkStatementTerminator st then
    .error (.parse "throw statement missing expression")
  else do
    let (e, st1) ← runNode nxt .exprR st
    .ok (.vnode (.ThrowStatement e), consumeStatementTerminator st1)

/-- parse_expression_statement. -/
def pmExprStmt (nxt : Eng) (st : PState) : PRes := do
  let (e, st1) ← runNode nxt .exprR st
  .ok (.vnode (.ExpressionStatement e), consumeStatementTerminator st1)

/-- Trailing assignment-operator check of parse_assignment_expression. -/
def pmAssignTail (nxt : Eng) (e : Node) (st : PState) : PRes :=
  let mA := matchAny st [.ASSIGN, .PLUS_ASSIGN, .MINUS_ASSIGN]
  if mA.1 then do
    let op := (previousT mA.2).value
    let (right, st2) ← runNode nxt .assignExpr mA.2
    .ok (.vnode (.AssignmentExpression e op right), st2)
  else .ok (.vnode e, st)

/-- parse_assignment_expression, including the arrow-function lookahead with
its partial backtracking: the cursor is restored when the parenthesized
prefix parses as an identifier list but is not followed by `)` `=>`, while a
failing `consume` inside the parameter attempt propagates as a ParseError. -/
def pmAssignExpr (nxt : Eng) (st : PState) : PRes := do
  if checkT st .IDENTIFIER ∨ checkT st .LEFT_PAREN then
    let startPos := st.current
    let mLP := matchT st .LEFT_PAREN
    if mLP.1 then do
      let paramsRes ←
        if ¬ checkT mLP.2 .RIGHT_PAREN then do
          let (t1, st1) ← consume mLP.2 .IDENTIFIER "Expected parameter name"
          runNodes nxt (.assignParamsLoop [Node.Parameter t1.value none none false]) st1
        else pure (([] : List Node), mLP.2)
      let mRP := matchT paramsRes.2 .RIGHT_PAREN
      if ¬ mRP.1 then do
        let (e, st3) ← runNode nxt .condExpr { st with current := startPos }
        pmAssignTail nxt e st3
      else
        let mArrow := matchT mRP.2 .ARROW
        if mArrow.1 then do
          let (body, st3) ← runNode nxt .assignExpr mArrow.2
          .ok (.vnode (.ArrowFunctionExpression paramsRes.1 body), st3)
        else do
          let (e, st3) ← runNode nxt .condExpr { st with current := startPos }
          pmAssignTail nxt e st3
    else if checkT st .IDENTIFIER then
      let isArrow : Bool :=
        match peekAhead st 1 with
        | some t1 => t1.type = .ARROW
        | none => false
      if isArrow then do
        let a := advanceT st
        let (_, st2) ← consume a.2 .ARROW "Expected \x27=>\x27 in arrow function"
        let (body, st3) ← runNode nxt .assignExpr st2
        .ok (.vnode (.ArrowFunctionExpression [Node.Parameter a.1.value none none false] body),
             st3)
      else do
        let (e, st1) ← runNode nxt .condExpr st
        pmAssignTail nxt e st1
    else do
      let (e, st1) ← runNode nxt .condExpr st
      pmAssignTail nxt e st1
  else do
    let (e, st1) ← runNode nxt .condExpr st
    pmAssignTail nxt e st1

/-- Comma-separated identifier loop inside the arrow-parameter attempt of
parse_assignment_expression. -/
def pmAssignParamsLoop (nxt : Eng) (acc : List Node) (st : PState) : PRes := do
  let mC := matchT st .COMMA
  if mC.1 then do
    let (t, st1) ← consume mC.2 .IDENTIFIER "Expected parameter name"
    nxt (.assignParamsLoop (acc ++ [Node.Parameter t.value none none false])) st1
  else .ok (.vnodes acc, st)

/-- parse_conditional_expression. -/
def pmCondExpr (nxt : Eng) (st : PState) : PRes := do
  let (e, st1) ← runNode nxt .orExpr st
  let mQ := matchT st1 .QUESTION
  if mQ.1 then do
    let (cons, st2) ← runNode nxt .assignExpr mQ.2
    let (_, st3) ← consume st2 .COLON "Expected \x27:\x27 after \x27?\x27 in ternary"
    let (alt, st4) ← runNode nxt .assignExpr st3
    .ok (.vnode (.ConditionalExpression e cons alt), st4)
  else .ok (.vnode e, st1)

/-- The shared shape of the left-associative binary-operator loops
(parse_logical_or/logical_and/equality/relational/additive/multiplicative
_expression). -/
def pmBinaryLoop (nxt : Eng) (ops : List TokenType) (subReq : Req)
    (loopReq : Node → Req) (left : Node) (st : PState) : PRes :=
  let mOp := matchAny st ops
  if mOp.1 then do
    let op := (previousT mOp.2).value
    let (right, st2) ← runNode nxt subReq mOp.2
    nxt (loopReq (.BinaryExpression left op right)) st2
  else .ok (.vnode left, st)

def pmBinaryLevel (nxt : Eng) (subReq : Req) (loopReq : Node → Req)
    (st : PState) : PRes := do
  let (e, st1) ← runNode nxt subReq st
  nxt (loopReq e) st1

def orOps : List TokenType := [.OR, .LOGICAL_OR]
def andOps : List TokenType := [.AND, .LOGICAL_AND]
def eqOps : List TokenType :=
  [.EQUAL, .NOT_EQUAL, .STRICT_EQUAL, .STRICT_NOT_EQUAL, .NOT_EQUAL_UNICODE]
def relOps : List TokenType :=
  [.LESS, .GREATER, .LESS_EQUAL, .GREATER_EQUAL,
   .LESS_EQUAL_UNICODE, .GREATER_EQUAL_UNICODE]
def addOps : List TokenType := [.PLUS, .MINUS, .MINUS_UNICODE]
def mulOps : List TokenType :=
  [.MULTIPLY, .DIVIDE, .MODULO, .MULTIPLY_UNICODE, .DIVIDE_UNICODE]

/-- parse_unary_expression. -/
def pmUnaryExpr (nxt : Eng) (st : PState) : PRes := do
  let mU := matchAny st [.NOT, .MINUS, .PLUS, .MINUS_UNICODE, .SQRT]
  if mU.1 then do
    let op := (previousT mU.2).value
    let (e, st2) ← runNode nxt .unaryExpr mU.2
    .ok (.vnode (.UnaryExpression op e), st2)
  else
    let mI := matchAny st [.INCREMENT, .DECREMENT]
    if mI.1 then do
      let op := (previousT mI.2).value
      let (e, st2) ← runNode nxt .postfixExpr mI.2
      .ok (.vnode (.UpdateExpression op e true), st2)
    else nxt .postfixExpr st

/-- parse_postfix_expression: postfix increment/decrement, or a trailing
superscript digit turned into exponentiation. -/
def pmPostfixExpr (nxt : Eng) (st : PState) : PRes := do
  let (e, st1) ← runNode nxt .callExpr st
  let mI := matchAny st1 [.INCREMENT, .DECREMENT]
  if mI.1 then
    .ok (.vnode (.UpdateExpression (previousT mI.2).value e false), mI.2)
  else
    let mS := matchT st1 .SUPERSCRIPT_NUMBER
    if mS.1 then
      let v := (previousT mS.2).value
      match pyIntParse v with
      | some n =>
        .ok (.vnode (.BinaryExpression e "^" (.Literal (.int n))), mS.2)
      | none =>
        if pyFloatOk v then
          .ok (.vnode (.BinaryExpression e "^" (.Literal (.float v))), mS.2)
        else .error (.py (pyFloatErrMsg v))
    else .ok (.vnode e, st1)

/-- parse_call_expression: a primary expression followed by call, member
and index suffixes. -/
def pmCallExpr (nxt : Eng) (st : PState) : PRes := do
  let (e, st1) ← runNode nxt .primary st
  nxt (.callLoop e) st1

/-- Suffix loop of parse_call_expression. -/
def pmCallLoop (nxt : Eng) (e : Node) (st : PState) : PRes := do
  let mLP := matchT st .LEFT_PAREN
  if mLP.1 then do
    let (args, st1) ← runNodes nxt (.argListLoop []) mLP.2
    let (_, st2) ← consume st1 .RIGHT_PAREN "Expected \x27)\x27 after arguments"
    nxt (.callLoop (.CallExpression e args)) st2
  else
    let mDot := matchT st .DOT
    if mDot.1 then do
      let (nTok, st1) ← consume mDot.2 .IDENTIFIER "Expected property name after \x27.\x27"
      nxt (.callLoop (.MemberExpression e (.Identifier nTok.value none) false)) st1
    else
      let mLB := matchT st .LEFT_BRACKET
      if mLB.1 then do
        let (prop, st1) ← runNode nxt .exprR mLB.2
        let (_, st2) ← consume st1 .RIGHT_BRACKET "Expected \x27]\x27 after computed property"
        nxt (.callLoop (.MemberExpression e prop true)) st2
      else .ok (.vnode e, st)

/-- Loop of parse_argument_list. -/
def pmArgListLoop (nxt : Eng) (acc : List Node) (st : PState) : PRes := do
  if ¬ checkT st .RIGHT_PAREN ∧ ¬ isAtEnd st then
    let mSp := matchT st .DOT_DOT_DOT
    let argRes ←
      if mSp.1 then do
        let (a, st1) ← runNode nxt .assignExpr mSp.2
        pure (Node.SpreadElement a, st1)
      else do
        let (a, st1) ← runNode nxt .assignExpr st
        pure (a, st1)
    let acc2 := acc ++ [argRes.1]
    let mC := matchT argRes.2 .COMMA
    if mC.1 then nxt (.argListLoop acc2) mC.2
    else .ok (.vnodes acc2, argRes.2)
  else .ok (.vnodes acc, st)

/-- parse_primary_expression. -/
def pmPrimary (nxt : Eng) (st : PState) : PRes := do
  let mTrue := matchT st .TRUE
  if mTrue.1 then .ok (.vnode (.Literal (.bool true)), mTrue.2) else
  let mFalse := matchT st .FALSE
  if mFalse.1 then .ok (.vnode (.Literal (.bool false)), mFalse.2) else
  let mNull := matchT st .NULL
  if mNull.1 then .ok (.vnode (.Literal .null), mNull.2) else
  let mUndef := matchT st .UNDEFINED
  if mUndef.1 then .ok (.vnode (.Literal .null), mUndef.2) else
  let mNum := matchT st .NUMBER
  if mNum.1 then
    let v := (previousT mNum.2).value
    match pyIntParse v with
    | some n => .ok (.vnode (.Literal (.int n)), mNum.2)
    | none =>
      if pyFloatOk v then .ok (.vnode (.Literal (.float v)), mNum.2)
      else .error (.py (pyFloatErrMsg v))
  else
  let mStr := matchT st .STRING
  if mStr.1 then .ok (.vnode (.Literal (.str (previousT mStr.2).value)), mStr.2) else
  let mConst := matchAny st [.MATH_PI, .MATH_E, .MATH_PHI, .MATH_INFINITY]
  if mConst.1 then
    .ok (.vnode (.Identifier (previousT mConst.2).value none), mConst.2)
  else
  let mTmpl := matchAny st [.TEMPLATE_STRING, .TEMPLATE_START]
  if mTmpl.1 then nxt (.templateLit (previousT mTmpl.2)) mTmpl.2 else
  let mThis := matchT st .THIS
  if mThis.1 then .ok (.vnode (.Identifier "this" none), mThis.2) else
  let mId := matchT st .IDENTIFIER
  if mId.1 then
    let name := (previousT mId.2).value
    if checkT mId.2 .SUBSCRIPT_NUMBER then
      let a := advanceT mId.2
      .ok (.vnode (.Identifier name (some a.1.value)), a.2)
    else .ok (.vnode (.Identifier name none), mId.2)
  else
  let mLB := matchT st .LEFT_BRACKET
  if mLB.1 then nxt (.arrayExprLoop []) mLB.2 else
  let mBrace := matchT st .LEFT_BRACE
  if mBrace.1 then nxt (.objectExprLoop []) mBrace.2 else
  let mLP := matchT st .LEFT_PAREN
  if mLP.1 then do
    let arrow ← is_arrow_function mLP.2
    if arrow then nxt .arrowFn mLP.2
    else do
      let (e, st1) ← runNode nxt .exprR mLP.2
      let (_, st2) ← consume st1 .RIGHT_PAREN "Expected \x27)\x27 after expression"
      .ok (.vnode e, st2)
  else
  let singleArrow : Bool :=
    checkT st .IDENTIFIER &&
      (match peekAhead st 1 with
       | some t1 => decide (t1.type = .ARROW)
       | none => false)
  if singleArrow then nxt .arrowFn st else
  let mNew := matchT st .NEW
  if mNew.1 then do
    let (callee, st1) ← runNode nxt .memberForNew mNew.2
    let mLP2 := matchT st1 .LEFT_PAREN
    if mLP2.1 then do
      let (args, st2) ← runNodes nxt (.argListLoop []) mLP2.2
      let (_, st3) ← consume st2 .RIGHT_PAREN "Expected \x27)\x27 after new arguments"
      .ok (.vnode (.NewExpression callee args), st3)
    else .ok (.vnode (.NewExpression callee []), st1)
  else
    .error (.parse ("Unexpected token: " ++ (peekT st).value))

/-- parse_template_literal: the first (already consumed) template token
starts the quasis list; the tail flag compares against TEMPLATE_END, which
the first token never is. -/
def pmTemplateLit (nxt : Eng) (first : Token) (st : PState) : PRes :=
  let isTail := first.type = .TEMPLATE_END
  let quasis := [Node.TemplateElement first.value isTail]
  if isTail then .ok (.vnode (.TemplateLiteral quasis []), st)
  else nxt (.templateLoop quasis []) st

/-- Token loop of parse_template_literal: interpolation texts become an
Identifier when the captured text is a Python identifier, otherwise a
string Literal; text parts become TemplateElements, stopping after
TEMPLATE_END. -/
def pmTemplateLoop (nxt : Eng) (quasis : List Node) (exprs : List Node)
    (st : PState) : PRes :=
  if checkAny st [.TEMPLATE_STRING, .TEMPLATE_START, .TEMPLATE_MIDDLE,
                  .TEMPLATE_END, .TEMPLATE_EXPRESSION] ∧ ¬ isAtEnd st then
    let mE := matchT st .TEMPLATE_EXPRESSION
    if mE.1 then
      let t := (previousT mE.2).value
      if pyStrip t ≠ "" then
        if pyIsIdentifier t then
          nxt (.templateLoop quasis (exprs ++ [Node.Identifier t none])) mE.2
        else
          nxt (.templateLoop quasis (exprs ++ [Node.Literal (.str t)])) mE.2
      else nxt (.templateLoop quasis exprs) mE.2
    else
      let mT := matchAny st [.TEMPLATE_START, .TEMPLATE_MIDDLE, .TEMPLATE_END,
                             .TEMPLATE_STRING]
      if mT.1 then
        let prev := previousT mT.2
        let isTail := prev.type = .TEMPLATE_END
        let quasis2 := quasis ++ [Node.TemplateElement prev.value isTail]
        if isTail then .ok (.vnode (.TemplateLiteral quasis2 exprs), mT.2)
        else nxt (.templateLoop quasis2 exprs) mT.2
      else .ok (.vnode (.TemplateLiteral quasis exprs), st)
  else .ok (.vnode (.TemplateLiteral quasis exprs), st)

/-- Element loop of parse_array_expression. -/
def pmArrayExprLoop (nxt : Eng) (acc : List (Option Node)) (st : PState) : PRes := do
  if ¬ checkT st .RIGHT_BRACKET ∧ ¬ isAtEnd st then
    let mC := matchT st .COMMA
    if mC.1 then
      let acc2 := acc ++ [(none : Option Node)]
      let mC2 := matchT mC.2 .COMMA
      if mC2.1 then nxt (.arrayExprLoop acc2) mC2.2
      else finishArray nxt acc2 mC2.2
    else
      let mSp := matchT st .DOT_DOT_DOT
      if mSp.1 then do
        let (e, st1) ← runNode nxt .assignExpr mSp.2
        let acc2 := acc ++ [some (Node.SpreadElement e)]
        let mC2 := matchT st1 .COMMA
        if mC2.1 then nxt (.arrayExprLoop acc2) mC2.2
        else finishArray nxt acc2 mC2.2
      else do
        let (e, st1) ← runNode nxt .assignExpr st
        let acc2 := acc ++ [some e]
        let mC2 := matchT st1 .COMMA
        if mC2.1 then nxt (.arrayExprLoop acc2) mC2.2
        else finishArray nxt acc2 mC2.2
  else finishArray nxt acc st
where
  finishArray (_ : Eng) (acc : List (Option Node)) (st : PState) : PRes := do
    let (_, st2) ← consume st .RIGHT_BRACKET "Expected \x27]\x27 after array elements"
    .ok (.vnode (.ArrayExpression acc), st2)

/-- Property loop of parse_object_expression. -/
def pmObjectExprLoop (nxt : Eng) (acc : List Node) (st : PState) : PRes := do
  if ¬ checkT st .RIGHT_BRACE ∧ ¬ isAtEnd st then
    let mSp := matchT st .DOT_DOT_DOT
    let propRes ←
      if mSp.1 then do
        let (e, st1) ← runNode nxt .assignExpr mSp.2
        pure (Node.Property (.Literal (.str "...")) e "init" false false false, st1)
      else runNode nxt .property st
    let acc2 := acc ++ [propRes.1]
    let mC := matchT propRes.2 .COMMA
    if mC.1 then nxt (.objectExprLoop acc2) mC.2
    else do
      let (_, st2) ← consume propRes.2 .RIGHT_BRACE "Expected \x27\x7d\x27 after object properties"
      .ok (.vnode (.ObjectExpression acc2), st2)
  else do
    let (_, st2) ← consume st .RIGHT_BRACE "Expected \x27\x7d\x27 after object properties"
    .ok (.vnode (.ObjectExpression acc), st2)

/-- parse_property.  Note the shorthand early return fires before the
method-definition branch is reached whenever the key is a plain identifier
not followed by a colon. -/
def pmProperty (nxt : Eng) (st : PState) : PRes := do
  let mLB := matchT st .LEFT_BRACKET
  let keyRes ←
    if mLB.1 then do
      let (k, st1) ← runNode nxt .exprR mLB.2
      let (_, st2) ← consume st1 .RIGHT_BRACKET "Expected \x27]\x27 after computed property"
      pure (k, true, st2)
    else
      if checkT st .IDENTIFIER then
        let a := advanceT st
        pure (Node.Identifier a.1.value none, false, a.2)
      else if checkT st .STRING then
        let a := advanceT st
        pure (Node.Literal (.str a.1.value), false, a.2)
      else if checkT st .NUMBER then
        let a := advanceT st
        pure (Node.Literal (.str a.1.value), false, a.2)
      else .error (.parse "Expected property name")
  let key := keyRes.1
  let computed := keyRes.2.1
  let st1 := keyRes.2.2
  let isIdentKey : Bool := match key with | .Identifier _ _ => true | _ => false
  if isIdentKey ∧ ¬ computed ∧ ¬ checkT st1 .COLON then
    .ok (.vnode (.Property key key "init" false true false), st1)
  else
    let mLP := matchT st1 .LEFT_PAREN
    if mLP.1 then do
      let (params, st2) ← runNodes nxt (.paramListLoop []) mLP.2
      let (_, st3) ← consume st2 .RIGHT_PAREN "Expected \x27)\x27 after method parameters"
      let (body, st4) ← runNode nxt .blockStmt st3
      let fname := match key with
                   | .Identifier n _ => n
                   | .Literal v => litValStr v
                   | _ => ""
      let func := Node.FunctionDeclaration fname params body none false false
      .ok (.vnode (.Property key func "init" true false computed), st4)
    else do
      let (_, st2) ← consume st1 .COLON "Expected \x27:\x27 after property key"
      let (value, st3) ← runNode nxt .assignExpr st2
      .ok (.vnode (.Property key value "init" false false computed), st3)

/-- parse_arrow_function. -/
def pmArrowFn (nxt : Eng) (st : PState) : PRes := do
  let paramsRes ←
    if checkT st .LEFT_PAREN then do
      let st1 := (advanceT st).2
      let (params, st2) ← runNodes nxt (.paramListLoop []) st1
      let (_, st3) ← consume st2 .RIGHT_PAREN
        "Expected \x27)\x27 after arrow function parameters"
      pure (params, st3)
    else do
      let (nTok, st1) ← consume st .IDENTIFIER "Expected parameter name"
      pure ([Node.Parameter nTok.value none none false], st1)
  let (_, st2) ← consume paramsRes.2 .ARROW "Expected \x27=>\x27 in arrow function"
  if checkT st2 .LEFT_BRACE then do
    let (body, st3) ← runNode nxt .blockStmt st2
    .ok (.vnode (.ArrowFunctionExpression paramsRes.1 body), st3)
  else do
    let (body, st3) ← runNode nxt .assignExpr st2
    .ok (.vnode (.ArrowFunctionExpression paramsRes.1 body), st3)

/-- parse_member_expression (callee of `new`). -/
def pmMemberForNew (nxt : Eng) (st : PState) : PRes := do
  let (e, st1) ← runNode nxt .primary st
  nxt (.memberForNewLoop e) st1

/-- Member-suffix loop of parse_member_expression. -/
def pmMemberForNewLoop (nxt : Eng) (e : Node) (st : PState) : PRes := do
  let mA := matchAny st [.DOT, .LEFT_BRACKET]
  if mA.1 then
    if (previousT mA.2).type = .DOT then do
      let (nTok, st1) ← consume mA.2 .IDENTIFIER "Expected property name"
      nxt (.memberForNewLoop (.MemberExpression e (.Identifier nTok.value none) false)) st1
    else do
      let (prop, st1) ← runNode nxt .exprR mA.2
      let (_, st2) ← consume st1 .RIGHT_BRACKET "Expected \x27]\x27"
      nxt (.memberForNewLoop (.MemberExpression e prop true)) st2
  else .ok (.vnode e, st)

/-- parse_array_pattern: entry. -/
def pmArrayPat (nxt : Eng) (st : PState) : PRes := do
  let (_, st1) ← consume st .LEFT_BRACKET "Expected \x27[\x27"
  nxt (.arrayPatLoop []) st1

/-- Element loop of parse_array_pattern. -/
def pmArrayPatLoop (nxt : Eng) (acc : List (Option Node)) (st : PState) : PRes := do
  if ¬ checkT st .RIGHT_BRACKET ∧ ¬ isAtEnd st then
    let mC := matchT st .COMMA
    if mC.1 then continuePat nxt (acc ++ [(none : Option Node)]) mC.2
    else
      let mRest := matchT st .DOT_DOT_DOT
      if mRest.1 then do
        let (nTok, st1) ← consume mRest.2 .IDENTIFIER
          "Expected identifier after \x27...\x27"
        finishPat nxt (acc ++ [some (Node.RestElement (.Identifier nTok.value none))]) st1
      else
        if checkT st .IDENTIFIER then
          let a := advanceT st
          continuePat nxt (acc ++ [some (Node.Identifier a.1.value none)]) a.2
        else if checkT st .LEFT_BRACKET then do
          let (p, st1) ← runNode nxt .arrayPat st
          continuePat nxt (acc ++ [some p]) st1
        else if checkT st .LEFT_BRACE then do
          let (p, st1) ← runNode nxt .objectPat st
          continuePat nxt (acc ++ [some p]) st1
        else .error (.parse "Expected identifier or pattern in array destructuring")
  else finishPat nxt acc st
where
  continuePat (nxt : Eng) (acc : List (Option Node)) (st : PState) : PRes :=
    if ¬ checkT st .RIGHT_BRACKET then
      let mC := matchT st .COMMA
      if mC.1 then nxt (.arrayPatLoop acc) mC.2
      else finishPat nxt acc st
    else nxt (.arrayPatLoop acc) st
  finishPat (_ : Eng) (acc : List (Option Node)) (st : PState) : PRes := do
    let (_, st2) ← consume st .RIGHT_BRACKET "Expected \x27]\x27"
    .ok (.vnode (.ArrayPattern acc), st2)

/-- parse_object_pattern: entry. -/
def pmObjectPat (nxt : Eng) (st : PState) : PRes := do
  let (_, st1) ← consume st .LEFT_BRACE "Expected \x27\x7b\x27"
  nxt (.objectPatLoop []) st1

/-- Property loop of parse_object_pattern. -/
def pmObjectPatLoop (nxt : Eng) (acc : List Node) (st : PState) : PRes := do
  if ¬ checkT st .RIGHT_BRACE ∧ ¬ isAtEnd st then
    let mRest := matchT st .DOT_DOT_DOT
    if mRest.1 then do
      let (nTok, st1) ← consume mRest.2 .IDENTIFIER "Expected identifier after \x27...\x27"
      finishObjPat nxt (acc ++ [Node.RestElement (.Identifier nTok.value none)]) st1
    else do
      let (kTok, st1) ← consume st .IDENTIFIER "Expected property name"
      let key := Node.Identifier kTok.value none
      let mColon := matchT st1 .COLON
      let propRes ←
        if mColon.1 then
          if checkT mColon.2 .IDENTIFIER then
            let a := advanceT mColon.2
            pure (Node.Property key (.Identifier a.1.value none) "init" false false false, a.2)
          else if checkT mColon.2 .LEFT_BRACKET then do
            let (p, st2) ← runNode nxt .arrayPat mColon.2
            pure (Node.Property key p "init" false false false, st2)
          else if checkT mColon.2 .LEFT_BRACE then do
            let (p, st2) ← runNode nxt .objectPat mColon.2
            pure (Node.Property key p "init" false false false, st2)
          else .error (.parse "Expected identifier or pattern after \x27:\x27")
        else pure (Node.Property key key "init" false true false, st1)
      let acc2 := acc ++ [propRes.1]
      if ¬ checkT propRes.2 .RIGHT_BRACE then
        let mC := matchT propRes.2 .COMMA
        if mC.1 then nxt (.objectPatLoop acc2) mC.2
        else finishObjPat nxt acc2 propRes.2
      else nxt (.objectPatLoop acc2) propRes.2
  else finishObjPat nxt acc st
where
  finishObjPat (_ : Eng) (acc : List Node) (st : PState) : PRes := do
    let (_, st2) ← consume st .RIGHT_BRACE "Expected \x27\x7d\x27"
    .ok (.vnode (.ObjectPattern acc), st2)

/-- parse_type_annotation: a base type, optionally with generic arguments. -/
def pmTypeAnn (nxt : Eng) (st : PState) : PRes := do
  let baseRes ←
    if checkT st .IDENTIFIER then
      let a := advanceT st
      pure (a.1.value, a.2)
    else if isTypeToken st then
      let a := advanceT st
      pure (a.1.value, a.2)
    else .error (.parse "Expected type in type annotation")
  let mLess := matchT baseRes.2 .LESS
  if mLess.1 then do
    let (arg1, st1) ← runStr nxt .typeAnn mLess.2
    nxt (.typeAnnArgs baseRes.1 [arg1]) st1
  else .ok (.vstr baseRes.1, baseRes.2)

/-- Generic-argument loop of parse_type_annotation. -/
def pmTypeAnnArgs (nxt : Eng) (base : String) (acc : List String) (st : PState) :
    PRes := do
  let mC := matchT st .COMMA
  if mC.1 then do
    let (arg, st1) ← runStr nxt .typeAnn mC.2
    nxt (.typeAnnArgs base (acc ++ [arg])) st1
  else do
    let (_, st1) ← consume st .GREATER "Expected \x27>\x27 after generic type arguments"
    .ok (.vstr (base ++ "<" ++ String.intercalate ", " acc ++ ">"), st1)

/-- The fuelled dispatcher tying the parsing methods together. -/
def runP : Nat → Req → PState → PRes
  | 0, _, _ => .error .fuel
  | n + 1, r, st =>
    match r with
    | .program acc => pmProgram (runP n) acc st
    | .stmt => pmStatement (runP n) st
    | .stmtCore => pmStatementCore (runP n) st
    | .varDeclLoop kind acc => pmVarDeclLoop (runP n) kind acc st
    | .ifStmt => pmIfStatement (runP n) st
    | .forStmt => pmForStatement (runP n) st
    | .forOf => pmForOf (runP n) st
    | .forTrad => pmForTrad (runP n) st
    | .whileStmt => pmWhile (runP n) st
    | .tryStmt => pmTry (runP n) st
    | .funcDecl => pmFuncDecl (runP n) st
    | .classDecl => pmClassDecl (runP n) st
    | .classBody name sup old acc => pmClassBody (runP n) name sup old acc st
    | .methodDef => pmMethodDef (runP n) st
    | .mathFunc => pmMathFunc (runP n) st
    | .paramListLoop acc => pmParamListLoop (runP n) acc st
    | .blockStmt => pmBlockStmt (runP n) st
    | .blockBody acc => pmBlockBody (runP n) acc st
    | .returnStmt => pmReturnStmt (runP n) st
    | .breakStmt => pmBreakStmt st
    | .continueStmt => pmContinueStmt st
    | .throwStmt => pmThrowStmt (runP n) st
    | .exprStmt => pmExprStmt (runP n) st
    | .exprR => runP n .assignExpr st
    | .exprCtx ctx => pmExprCtx (runP n) ctx st
    | .assignExpr => pmAssignExpr (runP n) st
    | .assignParamsLoop acc => pmAssignParamsLoop (runP n) acc st
    | .condExpr => pmCondExpr (runP n) st
    | .orExpr => pmBinaryLevel (runP n) .andExpr Req.orLoop st
    | .orLoop left => pmBinaryLoop (runP n) orOps .andExpr Req.orLoop left st
    | .andExpr => pmBinaryLevel (runP n) .eqExpr Req.andLoop st
    | .andLoop left => pmBinaryLoop (runP n) andOps .eqExpr Req.andLoop left st
    | .eqExpr => pmBinaryLevel (runP n) .relExpr Req.eqLoop st
    | .eqLoop left => pmBinaryLoop (runP n) eqOps .relExpr Req.eqLoop left st
    | .relExpr => pmBinaryLevel (runP n) .addExpr Req.relLoop st
    | .relLoop left => pmBinaryLoop (runP n) relOps .addExpr Req.relLoop left st
    | .addExpr => pmBinaryLevel (runP n) .mulExpr Req.addLoop st
    | .addLoop left => pmBinaryLoop (runP n) addOps .mulExpr Req.addLoop left st
    | .mulExpr => pmBinaryLevel (runP n) .unaryExpr Req.mulLoop st
    | .mulLoop left => pmBinaryLoop (runP n) mulOps .unaryExpr Req.mulLoop left st
    | .unaryExpr => pmUnaryExpr (runP n) st
    | .postfixExpr => pmPostfixExpr (runP n) st
    | .callExpr => pmCallExpr (runP n) st
    | .callLoop e => pmCallLoop (runP n) e st
    | .argListLoop acc => pmArgListLoop (runP n) acc st
    | .primary => pmPrimary (runP n) st
    | .templateLit first => pmTemplateLit (runP n) first st
    | .templateLoop quasis exprs => pmTemplateLoop (runP n) quasis exprs st
    | .arrayExprLoop acc => pmArrayExprLoop (runP n) acc st
    | .objectExprLoop acc => pmObjectExprLoop (runP n) acc st
    | .property => pmProperty (runP n) st
    | .arrowFn => pmArrowFn (runP n) st
    | .memberForNew => pmMemberForNew (runP n) st
    | .memberForNewLoop e => pmMemberForNewLoop (runP n) e st
    | .arrayPat => pmArrayPat (runP n) st
    | .arrayPatLoop acc => pmArrayPatLoop (runP n) acc st
    | .objectPat => pmObjectPat (runP n) st
    | .objectPatLoop acc => pmObjectPatLoop (runP n) acc st
    | .typeAnn => pmTypeAnn (runP n) st
    | .typeAnnArgs base acc => pmTypeAnnArgs (runP n) base acc st

/-! ## Parser entry points -/

def initPState (toks : List Token) : PState := ⟨toks, 0, false, false, false⟩

/-- Python `str` of a LexerError. -/
def lexerErrorStr (e : LexerError) : String :=
  "Lexer Error at line " ++ toString e.line ++ ", column " ++ toString e.column
    ++ ": " ++ e.message

/-- EnhancedParser.parse_program on a token list. -/
def parse_program (fuel : Nat) (toks : List Token) : PRes :=
  runP fuel (.program []) (initPState toks)

/-- parse_return_statement / parse_break_statement /
parse_continue_statement as entry points (used to state the loop- and
function-scope invariants). -/
def parse_return_statement (fuel : Nat) (st : PState) : PRes :=
  runP fuel .returnStmt st

def parse_break_statement (fuel : Nat) (st : PState) : PRes :=
  runP fuel .breakStmt st

def parse_continue_statement (fuel : Nat) (st : PState) : PRes :=
  runP fuel .continueStmt st

def parse_mathematical_function (fuel : Nat) (st : PState) : PRes :=
  runP fuel .mathFunc st

def parse_assignment_expression (fuel : Nat) (st : PState) : PRes :=
  runP fuel .assignExpr st

/-- EnhancedParser.parse: tokenize, parse the program, and wrap any error in
a ParseError mentioning the filename (a ParseError is rendered as
`Parse Error: <msg>`, a LexerError with its line and column). -/
def parse_source (fuel : Nat) (source filename : String) : Except PErr Node :=
  match tokenize source with
  | .error e =>
    .error (.parse ("Failed to parse " ++ filename ++ ": " ++ lexerErrorStr e))
  | .ok toks =>
    match parse_program fuel toks with
    | .error (.parse m) =>
      .error (.parse ("Failed to parse " ++ filename ++ ": Parse Error: " ++ m))
    | .error (.py m) =>
      .error (.parse ("Failed to parse " ++ filename ++ ": " ++ m))
    | .error .fuel => .error .fuel
    | .ok (.vnode prog, _) => .ok prog
    | .ok _ => .error (.py "internal: program result")

/-! ## Code generator (enhanced_transpiler.py, class EnhancedTranspiler)

The generator is a tree walk returning a string; Python exceptions during
the walk (AttributeError on destructuring targets) are modelled by the same
error type as the parser.  Each visit_* method becomes a helper receiving
the recursive generator as a function argument. -/

/-- ARRAY_METHODS: the runtime-connected array methods. -/
def ARRAY_METHODS : List (String × String) :=
  [("map", "_LS.map"), ("filter", "_LS.filter"), ("reduce", "_LS.reduce"),
   ("forEach", "_LS.forEach"), ("find", "_LS.find"), ("some", "_LS.some"),
   ("every", "_LS.every"), ("indexOf", "_LS.indexOf"),
   ("includes", "_LS.includes"), ("slice", "_LS.slice"), ("concat", "_LS.concat")]

def lookupArrayMethod (m : String) : Option String :=
  (ARRAY_METHODS.find? (fun e => e.1 = m)).map (fun e => e.2)

/-- Python `hasattr(node, "name") and node.name`: the AST classes carrying a
`name` attribute. -/
def nodeNameAttr : Node → Option String
  | .Identifier n _ => some n
  | .FunctionDeclaration n _ _ _ _ _ => some n
  | .ClassDeclaration n _ _ => some n
  | .Parameter n _ _ _ => some n
  | _ => none

/-- Python class name of a node, for the `-- Unhandled node type:` comment. -/
def nodeTypeName : Node → String
  | .Program _ => "Program"
  | .VariableDeclaration _ _ => "VariableDeclaration"
  | .VariableDeclarator _ _ _ => "VariableDeclarator"
  | .FunctionDeclaration _ _ _ _ _ _ => "FunctionDeclaration"
  | .ArrowFunctionExpression _ _ => "ArrowFunctionExpression"
  | .Parameter _ _ _ _ => "Parameter"
  | .IfStatement _ _ _ => "IfStatement"
  | .ForStatement _ _ _ _ => "ForStatement"
  | .ForOfStatement _ _ _ => "ForOfStatement"
  | .WhileStatement _ _ => "WhileStatement"
  | .TryStatement _ _ _ => "TryStatement"
  | .CatchClause _ _ => "CatchClause"
  | .ClassDeclaration _ _ _ => "ClassDeclaration"
  | .MethodDefinition _ _ _ _ => "MethodDefinition"
  | .NewExpression _ _ => "NewExpression"
  | .BlockStatement _ => "BlockStatement"
  | .ExpressionStatement _ => "ExpressionStatement"
  | .ReturnStatement _ => "ReturnStatement"
  | .BreakStatement => "BreakStatement"
  | .ContinueStatement => "ContinueStatement"
  | .ThrowStatement _ => "ThrowStatement"
  | .CallExpression _ _ => "CallExpression"
  | .MemberExpression _ _ _ => "MemberExpression"
  | .AssignmentExpression _ _ _ => "AssignmentExpression"
  | .BinaryExpression _ _ _ => "BinaryExpression"
  | .UnaryExpression _ _ => "UnaryExpression"
  | .UpdateExpression _ _ _ => "UpdateExpression"
  | .ConditionalExpression _ _ _ => "ConditionalExpression"
  | .Identifier _ _ => "Identifier"
  | .Literal _ => "Literal"
  | .ArrayExpression _ => "ArrayExpression"
  | .ObjectExpression _ => "ObjectExpression"
  | .Property _ _ _ _ _ _ => "Property"
  | .TemplateLiteral _ _ => "TemplateLiteral"
  | .TemplateElement _ _ => "TemplateElement"
  | .SpreadElement _ => "SpreadElement"
  | .RestElement _ => "RestElement"
  | .ArrayPattern _ => "ArrayPattern"
  | .ObjectPattern _ => "ObjectPattern"
  | .AssignmentPattern _ _ => "AssignmentPattern"

/-- Operand classification used by is_string_concatenation, folded into a
single predicate: an operand is string-shaped when it is a string literal,
a template literal, a call whose callee is a member access on a property
carrying one of the string method names, or a `+` binary node one of whose
own operands is string-shaped.  `is_string_concatenation l r` in the Python
source is the disjunction of these checks on its two operands, in the same
order per operand. -/
def strShaped : Node → Bool
  | .Literal (.str _) => true
  | .TemplateLiteral _ _ => true
  | .CallExpression callee _ =>
    (match callee with
     | .MemberExpression _ prop _ =>
       (match nodeNameAttr prop with
        | some m => m = "toString" ∨ m = "substring" ∨ m = "charAt" ∨ m = "slice"
        | none => false)
     | _ => false)
  | .BinaryExpression a op b => op = "+" && (strShaped a || strShaped b)
  | _ => false

/-- is_string_concatenation: either operand is string-shaped. -/
def is_string_concatenation (l r : Node) : Bool := strShaped l || strShaped r

/-- Python `str.strip()` non-emptiness used by the emitters. -/
def stripNonempty (s : String) : Bool := pyStrip s ≠ ""

/-- Python `code.split("\n")` (the form used by indent_code). -/
def splitNl : List Char → List Char → List String
  | [], acc => [String.mk acc.reverse]
  | c :: rest, acc =>
    if c = '\n' then String.mk acc.reverse :: splitNl rest []
    else splitNl rest (c :: acc)

def splitLinesNl (s : String) : List String := splitNl s.data []

/-- indent_code: two-space indentation of each non-blank line. -/
def indent_code (code : String) : String :=
  if ¬ stripNonempty code then code
  else
    String.intercalate "\n"
      ((splitLinesNl code).map (fun l => if stripNonempty l then "  " ++ l else l))

/-- `[p.name for p in parameters]` (all parameters in this pipeline are
Parameter nodes). -/
def paramNames (params : List Node) : List String :=
  params.map (fun p => match p with
    | .Parameter n _ _ _ => n
    | other => (nodeNameAttr other).getD "")

abbrev GRes := Except PErr String
abbrev Gen := Node → GRes

/-- Literal element of an array, where a hole (Python None) reaches the
generic dispatcher and produces the unhandled-node comment for NoneType. -/
def genOptElem (g : Gen) : Option Node → GRes
  | some e => g e
  | none => pure "-- Unhandled node type: NoneType"

/-- visit_Program: banner comment then the statements with blank results
dropped. -/
def visit_Program (g : Gen) (stmts : List Node) : GRes := do
  let codes ← stmts.mapM g
  let body := codes.filter stripNonempty
  pure (String.intercalate "\n"
    (["-- Generated by LUASCRIPT Enhanced Transpiler",
      "-- Mathematical programming with Unicode operator support", ""] ++ body))

/-- visit_MathematicalFunction: the pipeline's FunctionDeclaration nodes
never carry the `_expression_tokens` attribute (it is only attached by the
transpiler's unused internal mini-parser), so the emitted body is always
`return nil` regardless of the parsed expression. -/
def visit_MathematicalFunction (name : String) (params : List Node) : String :=
  "local function " ++ name ++ "(" ++ String.intercalate ", " (paramNames params)
    ++ ")\n  return nil\nend"

/-- visit_FunctionDeclaration. -/
def visit_FunctionDeclaration (g : Gen) (name : String) (params : List Node)
    (body : Node) (isMath : Bool) : GRes := do
  if isMath then pure (visit_MathematicalFunction name params)
  else do
    let paramStr := String.intercalate ", " (paramNames params)
    let bodyCode ← g body
    let lines := ["function " ++ name ++ "(" ++ paramStr ++ ")"]
    let lines := if stripNonempty bodyCode then lines ++ [indent_code bodyCode] else lines
    pure (String.intercalate "\n" (lines ++ ["end"]))

/-- The receiver test `isinstance(node.callee.object, Identifier) and
node.callee.object.name == 'Math'`. -/
def isMathObj : Node → Bool
  | .Identifier "Math" _ => true
  | _ => false

/-- The receiver test for the console.log rewrite. -/
def isConsoleObj : Node → Bool
  | .Identifier "console" _ => true
  | _ => false

/-- visit_CallExpression: console.log, the Math table, runtime array
methods, colon dispatch for other member calls, plain calls otherwise. -/
def visit_CallExpression (g : Gen) (callee : Node) (args : List Node) : GRes := do
  let special ←
    (match callee with
     | .MemberExpression obj prop _ =>
       (match prop with
        | .Identifier methodName _ => do
          let objCode ← g obj
          if isMathObj obj then do
            let argCodes ← args.mapM g
            pure (some ("math." ++ methodName ++ "("
              ++ String.intercalate ", " argCodes ++ ")"))
          else
            if isConsoleObj obj ∧ methodName = "log" then do
              let argCodes ← args.mapM g
              pure (some ("print(" ++ String.intercalate ", " argCodes ++ ")"))
            else
              match lookupArrayMethod methodName with
              | some runtimeFn => do
                let argCodes ← args.mapM g
                pure (some (runtimeFn ++ "("
                  ++ String.intercalate ", " (objCode :: argCodes) ++ ")"))
              | none => do
                let argCodes ← args.mapM g
                pure (some (objCode ++ ":" ++ methodName ++ "("
                  ++ String.intercalate ", " argCodes ++ ")"))
        | _ => pure (none : Option String))
     | _ => pure (none : Option String))
  match special with
  | some s => pure s
  | none => do
    let calleeCode ← g callee
    let argCodes ← args.mapM g
    pure (calleeCode ++ "(" ++ String.intercalate ", " argCodes ++ ")")

def quasiValue : Node → String
  | .TemplateElement v _ => v
  | _ => ""

/-- Format string of visit_TemplateLiteral: the i-th quasi text before each
`%s`, and the LAST quasi appended when there are more quasis than
expressions. -/
def tmplFormatStr (quasis : List Node) (nExprs : Nat) : String :=
  String.join ((List.range nExprs).map (fun i =>
    (match quasis.get? i with
     | some q => quasiValue q
     | none => "") ++ "%s")) ++
  (if quasis.length > nExprs then
     quasiValue (quasis.getLast?.getD (.TemplateElement "" false))
   else "")

/-- visit_TemplateLiteral. -/
def visit_TemplateLiteral (g : Gen) (quasis exprs : List Node) : GRes := do
  if exprs.isEmpty then
    match quasis with
    | q :: _ => pure ("\"" ++ quasiValue q ++ "\"")
    | [] => pure "\"\""
  else do
    let argCodes ← exprs.mapM g
    pure ("string.format(\"" ++ tmplFormatStr quasis exprs.length ++ "\", "
      ++ String.intercalate ", " argCodes ++ ")")

/-- visit_ArrayExpression: `_LS.array(\x7b...\x7d)`. -/
def visit_ArrayExpression (g : Gen) (elems : List (Option Node)) : GRes := do
  let codes ← elems.mapM (genOptElem g)
  pure ("_LS.array(\x7b" ++ String.intercalate ", " codes ++ "\x7d)")

/-- visit_BinaryExpression: Unicode and JavaScript operators mapped to Lua;
`+` dispatches on the syntactic string-concatenation classifier. -/
def visit_BinaryExpression (g : Gen) (l : Node) (op : String) (r : Node) : GRes := do
  let left ← g l
  let right ← g r
  if op = "×" then pure ("(" ++ left ++ " * " ++ right ++ ")")
  else if op = "÷" then pure ("(" ++ left ++ " / " ++ right ++ ")")
  else if op = "−" then pure ("(" ++ left ++ " - " ++ right ++ ")")
  else if op = "≤" then pure ("(" ++ left ++ " <= " ++ right ++ ")")
  else if op = "≥" then pure ("(" ++ left ++ " >= " ++ right ++ ")")
  else if op = "≠" then pure ("(" ++ left ++ " ~= " ++ right ++ ")")
  else if op = "√" then pure ("math.sqrt(" ++ right ++ ")")
  else if op = "^" then pure ("(" ++ left ++ " ^ " ++ right ++ ")")
  else if op = "+" then
    if is_string_concatenation l r then pure ("(" ++ left ++ " .. " ++ right ++ ")")
    else pure ("(" ++ left ++ " + " ++ right ++ ")")
  else if op = "||" then pure ("(" ++ left ++ " or " ++ right ++ ")")
  else if op = "&&" then pure ("(" ++ left ++ " and " ++ right ++ ")")
  else if op = "===" then pure ("(" ++ left ++ " == " ++ right ++ ")")
  else if op = "!==" then pure ("(" ++ left ++ " ~= " ++ right ++ ")")
  else if op = "==" then pure ("(" ++ left ++ " == " ++ right ++ ")")
  else if op = "!=" then pure ("(" ++ left ++ " ~= " ++ right ++ ")")
  else pure ("(" ++ left ++ " " ++ op ++ " " ++ right ++ ")")

/-- visit_VariableDeclaration: `var` assigns globally, `let`/`const` emit
`local`; a destructuring target raises AttributeError in the source
(`declarator.id.name`). -/
def visit_VariableDeclaration (g : Gen) (kind : String) (decls : List Node) : GRes := do
  let lines ← decls.mapM (fun d => do
    match d with
    | .VariableDeclarator idNode init _ => do
      let name ←
        match nodeNameAttr idNode with
        | some n => pure n
        | none => Except.error (.py ("\x27" ++ nodeTypeName idNode
            ++ "\x27 object has no attribute \x27name\x27"))
      if kind = "var" then
        match init with
        | some e => do
          let code ← g e
          pure (name ++ " = " ++ code)
        | none => pure (name ++ " = nil")
      else
        match init with
        | some e => do
          let code ← g e
          pure ("local " ++ name ++ " = " ++ code)
        | none => pure ("local " ++ name)
    | other => Except.error (.py ("\x27" ++ nodeTypeName other
        ++ "\x27 object has no attribute \x27id\x27")))
  pure (String.intercalate "\n" lines)

/-- visit_IfStatement. -/
def visit_IfStatement (g : Gen) (test cons : Node) (alt : Option Node) : GRes := do
  let testCode ← g test
  let consCode ← g cons
  let base := ["if " ++ testCode ++ " then", indent_code consCode]
  let withAlt ←
    match alt with
    | some a => do
      let altCode ← g a
      let isIf : Bool := match a with
        | .IfStatement _ _ _ => true
        | _ => false
      if isIf then pure (base ++ ["else" ++ String.mk (altCode.data.drop 2)])
      else pure (base ++ ["else", indent_code altCode])
    | none => pure base
  pure (String.intercalate "\n" (withAlt ++ ["end"]))

/-- visit_ForStatement: C-style loop lowered to `while true do`. -/
def visit_ForStatement (g : Gen) (init test upd : Option Node) (body : Node) :
    GRes := do
  let initLines ←
    match init with
    | some i => do
      let c ← g i
      pure [c]
    | none => pure []
  let testLines ←
    match test with
    | some t => do
      let c ← g t
      pure ["  if not (" ++ c ++ ") then break end"]
    | none => pure []
  let bodyCode ← g body
  let updLines ←
    match upd with
    | some u => do
      let c ← g u
      pure ["  " ++ c]
    | none => pure []
  pure (String.intercalate "\n"
    (initLines ++ ["while true do"] ++ testLines ++ [indent_code bodyCode]
      ++ updLines ++ ["end"]))

/-- visit_ForOfStatement: `for _, v in ipairs(e) do ... end`. -/
def visit_ForOfStatement (g : Gen) (left right body : Node) : GRes := do
  let varName ←
    match left with
    | .VariableDeclaration _ (d :: _) =>
      (match d with
       | .VariableDeclarator idNode _ _ =>
         (match nodeNameAttr idNode with
          | some n => pure n
          | none => Except.error (.py ("\x27" ++ nodeTypeName idNode
              ++ "\x27 object has no attribute \x27name\x27")))
       | other => Except.error (.py ("\x27" ++ nodeTypeName other
           ++ "\x27 object has no attribute \x27id\x27")))
    | other =>
      (match nodeNameAttr other with
       | some n => pure n
       | none => Except.error (.py ("\x27" ++ nodeTypeName other
           ++ "\x27 object has no attribute \x27name\x27")))
  let iterCode ← g right
  let bodyCode ← g body
  pure (String.intercalate "\n"
    ["for _, " ++ varName ++ " in ipairs(" ++ iterCode ++ ") do",
     indent_code bodyCode, "end"])

/-- visit_WhileStatement. -/
def visit_WhileStatement (g : Gen) (test body : Node) : GRes := do
  let t ← g test
  let b ← g body
  pure (String.intercalate "\n" ["while " ++ t ++ " do", indent_code b, "end"])

/-- visit_TryStatement: pcall-based lowering. -/
def visit_TryStatement (g : Gen) (block : Node) (handler fin : Option Node) :
    GRes := do
  let blockCode ← g block
  let base := ["local success, error = pcall(function()", indent_code blockCode, "end)"]
  let withHandler ←
    match handler with
    | some (.CatchClause param hbody) => do
      let paramLines :=
        match param with
        | some p =>
          (match nodeNameAttr p with
           | some n => ["  local " ++ n ++ " = error"]
           | none => [])
        | none => []
      let hCode ← g hbody
      pure (base ++ ["if not success then"] ++ paramLines ++ [indent_code hCode, "end"])
    | some other => do
      let hCode ← g other
      pure (base ++ ["if not success then", indent_code hCode, "end"])
    | none => pure base
  let withFin ←
    match fin with
    | some f => do
      let fCode ← g f
      pure (withHandler ++ ["-- Finally block", fCode])
    | none => pure withHandler
  pure (String.intercalate "\n" withFin)

/-- Split of a class body into (last) constructor and remaining methods,
as in visit_ClassDeclaration's partitioning loop. -/
def classSplit : List Node → Option Node × List Node
  | [] => (none, [])
  | m :: rest =>
    let r := classSplit rest
    match m with
    | .MethodDefinition _ _ "constructor" _ =>
      (match r.1 with
       | some c => (some c, r.2)
       | none => (some m, r.2))
    | _ => (r.1, m :: r.2)

/-- The lines visit_ClassDeclaration emits for one non-constructor method:
colon-syntax header, indented body, `end`.  The method's static flag is not
consulted anywhere in the emitter. -/
def methodDefLines (g : Gen) (className : String) (m : Node) :
    Except PErr (List String) := do
  match m with
  | .MethodDefinition key (.FunctionDeclaration _ params mbody _ _ _) _ _ => do
    let methodName := (nodeNameAttr key).getD ""
    let bodyCode ← g mbody
    pure ["function " ++ className ++ ":" ++ methodName ++ "("
            ++ String.intercalate ", " (paramNames params) ++ ")",
          indent_code bodyCode, "end"]
  | other => Except.error (.py ("\x27" ++ nodeTypeName other
      ++ "\x27 object has no attribute \x27key\x27"))

/-- The line list emitted by visit_ClassDeclaration.  All non-constructor
methods, static or not, are emitted with colon syntax. -/
def classLines (g : Gen) (className : String) (body : List Node) :
    Except PErr (List String) := do
  let split := classSplit body
  let header := ["local " ++ className ++ " = \x7b\x7d",
                 className ++ ".__index = " ++ className]
  let ctorLines ←
    match split.1 with
    | some (.MethodDefinition _ (.FunctionDeclaration _ params cbody _ _ _) _ _) => do
      let paramStr := String.intercalate ", " (paramNames params)
      let bodyCode ← g cbody
      pure ["function " ++ className ++ ".new(" ++ paramStr ++ ")",
            "  local self = setmetatable(\x7b\x7d, " ++ className ++ ")",
            indent_code bodyCode, "  return self", "end"]
    | _ => pure []
  let methodLines ← split.2.mapM (methodDefLines g className)
  pure (header ++ ctorLines ++ methodLines.flatten)

/-- visit_ClassDeclaration. -/
def visit_ClassDeclaration (g : Gen) (className : String) (body : List Node) :
    GRes := do
  let lines ← classLines g className body
  pure (String.intercalate "\n" lines)

/-- visit_NewExpression: `C.new(args)`. -/
def visit_NewExpression (g : Gen) (callee : Node) (args : List Node) : GRes := do
  let c ← g callee
  let argCodes ← args.mapM g
  pure (c ++ ".new(" ++ String.intercalate ", " argCodes ++ ")")

/-- visit_BlockStatement. -/
def visit_BlockStatement (g : Gen) (stmts : List Node) : GRes := do
  let codes ← stmts.mapM g
  pure (String.intercalate "\n" (codes.filter stripNonempty))

/-- visit_ObjectExpression. -/
def visit_ObjectExpression (g : Gen) (props : List Node) : GRes := do
  if props.isEmpty then pure "\x7b\x7d"
  else do
    let lines ← props.mapM (fun p => do
      match p with
      | .Property key value _ _ _ computed => do
        let keyCode ← g key
        let valueCode ← g value
        if computed then pure ("  [" ++ keyCode ++ "] = " ++ valueCode ++ ",")
        else
          match key with
          | .Identifier n _ => pure ("  " ++ n ++ " = " ++ valueCode ++ ",")
          | _ => pure ("  [" ++ keyCode ++ "] = " ++ valueCode ++ ",")
      | other => Except.error (.py ("\x27" ++ nodeTypeName other
          ++ "\x27 object has no attribute \x27key\x27")))
    pure (String.intercalate "\n" (["\x7b"] ++ lines ++ ["\x7d"]))

/-- visit_ArrowFunctionExpression. -/
def visit_ArrowFunctionExpression (g : Gen) (params : List Node) (body : Node) :
    GRes := do
  let paramStr := String.intercalate ", " (paramNames params)
  let bodyCode ← g body
  match body with
  | .BlockStatement _ =>
    pure ("function(" ++ paramStr ++ ")\n" ++ indent_code bodyCode ++ "\nend")
  | _ => pure ("function(" ++ paramStr ++ ") return " ++ bodyCode ++ " end")

/-- visit_AssignmentExpression. -/
def visit_AssignmentExpression (g : Gen) (l : Node) (op : String) (r : Node) :
    GRes := do
  let left ← g l
  let right ← g r
  if op = "=" then pure (left ++ " = " ++ right)
  else if op = "+=" then pure (left ++ " = " ++ left ++ " + " ++ right)
  else if op = "-=" then pure (left ++ " = " ++ left ++ " - " ++ right)
  else if op = "*=" then pure (left ++ " = " ++ left ++ " * " ++ right)
  else if op = "/=" then pure (left ++ " = " ++ left ++ " / " ++ right)
  else pure (left ++ " " ++ op ++ " " ++ right)

/-- visit_UnaryExpression. -/
def visit_UnaryExpression (g : Gen) (op : String) (arg : Node) : GRes := do
  let a ← g arg
  if op = "!" then pure ("not " ++ a)
  else if op = "-" then pure ("-" ++ a)
  else if op = "+" then pure ("+" ++ a)
  else if op = "√" then pure ("math.sqrt(" ++ a ++ ")")
  else pure (op ++ a)

/-- visit_UpdateExpression. -/
def visit_UpdateExpression (g : Gen) (op : String) (arg : Node) (isPre : Bool) :
    GRes := do
  let a ← g arg
  if op = "++" then
    if isPre then pure ("(" ++ a ++ " = " ++ a ++ " + 1)")
    else pure ("(function() local temp = " ++ a ++ "; " ++ a ++ " = " ++ a
      ++ " + 1; return temp end)()")
  else if op = "--" then
    if isPre then pure ("(" ++ a ++ " = " ++ a ++ " - 1)")
    else pure ("(function() local temp = " ++ a ++ "; " ++ a ++ " = " ++ a
      ++ " - 1; return temp end)()")
  else pure (op ++ a)

/-- visit_ConditionalExpression: the Lua and/or idiom. -/
def visit_ConditionalExpression (g : Gen) (t c a : Node) : GRes := do
  let tc ← g t
  let cc ← g c
  let ac ← g a
  pure ("(" ++ tc ++ " and " ++ cc ++ " or " ++ ac ++ ")")

/-- visit_MemberExpression: `Math` maps to the Lua `math` table. -/
def visit_MemberExpression (g : Gen) (obj prop : Node) (computed : Bool) : GRes := do
  let objCode0 ← g obj
  let objCode := match obj with
    | .Identifier "Math" _ => "math"
    | _ => objCode0
  if computed then do
    let p ← g prop
    pure (objCode ++ "[" ++ p ++ "]")
  else
    match prop with
    | .Identifier n _ => pure (objCode ++ "." ++ n)
    | _ => do
      let p ← g prop
      pure (objCode ++ "[" ++ p ++ "]")

/-- visit_Identifier: `this` becomes `self`; subscripts are dropped. -/
def visit_Identifier (name : String) : String :=
  if name = "this" then "self" else name

/-- visit_Literal. -/
def visit_Literal : LitValue → String
  | .str s => "\"" ++ s ++ "\""
  | .null => "nil"
  | .bool b => if b then "true" else "false"
  | .int n => toString n
  | .float raw => raw

/-- The generate dispatcher (fuelled). -/
def generate : Nat → Node → GRes
  | 0, _ => .error .fuel
  | n + 1, node =>
    match node with
    | .Program stmts => visit_Program (generate n) stmts
    | .VariableDeclaration kind decls => visit_VariableDeclaration (generate n) kind decls
    | .FunctionDeclaration name params body _ isMath _ =>
      visit_FunctionDeclaration (generate n) name params body isMath
    | .ClassDeclaration name _ body => visit_ClassDeclaration (generate n) name body
    | .IfStatement t c a => visit_IfStatement (generate n) t c a
    | .ForStatement i t u b => visit_ForStatement (generate n) i t u b
    | .ForOfStatement l r b => visit_ForOfStatement (generate n) l r b
    | .WhileStatement t b => visit_WhileStatement (generate n) t b
    | .TryStatement b h f => visit_TryStatement (generate n) b h f
    | .BlockStatement stmts => visit_BlockStatement (generate n) stmts
    | .ReturnStatement arg =>
      (match arg with
       | some e => do
         let c ← generate n e
         pure ("return " ++ c)
       | none => pure "return")
    | .BreakStatement => pure "break"
    | .ContinueStatement => pure "goto continue"
    | .ExpressionStatement e => generate n e
    | .CallExpression callee args => visit_CallExpression (generate n) callee args
    | .NewExpression callee args => visit_NewExpression (generate n) callee args
    | .MemberExpression o p c => visit_MemberExpression (generate n) o p c
    | .TemplateLiteral q e => visit_TemplateLiteral (generate n) q e
    | .BinaryExpression l op r => visit_BinaryExpression (generate n) l op r
    | .Identifier name _ => pure (visit_Identifier name)
    | .Literal v => pure (visit_Literal v)
    | .ArrayExpression elems => visit_ArrayExpression (generate n) elems
    | .ObjectExpression props => visit_ObjectExpression (generate n) props
    | .ArrowFunctionExpression params body =>
      visit_ArrowFunctionExpression (generate n) params body
    | .AssignmentExpression l op r => visit_AssignmentExpression (generate n) l op r
    | .UnaryExpression op a => visit_UnaryExpression (generate n) op a
    | .UpdateExpression op a pre => visit_UpdateExpression (generate n) op a pre
    | .ConditionalExpression t c a => visit_ConditionalExpression (generate n) t c a
    | other => pure ("-- Unhandled node type: " ++ nodeTypeName other)

/-! ## Transpiler entry point -/

structure TranspilerError where
  message : String
  deriving DecidableEq

def runtimeImport : String :=
  "local _LS = require(\"runtime/core/enhanced_runtime\")\n\n"

/-- EnhancedTranspiler.transpile: tokenize, parse (parse_tokens drives
parse_program directly, so parse errors reach transpile unwrapped), emit
Lua, and prepend the unconditional runtime import.  Any error is wrapped as
a TranspilerError with the Python `str` of the inner exception. -/
def transpile (fuel : Nat) (source _filename : String) :
    Except TranspilerError String :=
  match tokenize source with
  | .error e =>
    .error ⟨"Transpilation failed: " ++ lexerErrorStr e⟩
  | .ok toks =>
    match parse_program fuel toks with
    | .error (.parse m) => .error ⟨"Transpilation failed: Parse Error: " ++ m⟩
    | .error (.py m) => .error ⟨"Transpilation failed: " ++ m⟩
    | .error .fuel => .error ⟨"INTERNAL: fuel exhausted"⟩
    | .ok (.vnode prog, _) =>
      (match generate fuel prog with
       | .error (.parse m) => .error ⟨"Transpilation failed: Parse Error: " ++ m⟩
       | .error (.py m) => .error ⟨"Transpilation failed: " ++ m⟩
       | .error .fuel => .error ⟨"INTERNAL: fuel exhausted"⟩
       | .ok lua => .ok (runtimeImport ++ lua))
    | .ok _ => .error ⟨"Transpilation failed: internal"⟩

/-- Property checked for C10: a TEMPLATE_START or TEMPLATE_MIDDLE token never
carries an empty text segment. -/
def templateTextTokenOk (t : Token) : Bool :=
  decide (¬ (t.type = TokenType.TEMPLATE_START ∨ t.type = TokenType.TEMPLATE_MIDDLE) ∨
    t.value ≠ "")

/-- The classifier exactly as the specification words it (C8): a string
literal, a template literal, a call whose member name is one of toString,
substring, charAt, slice, or a `+` subtree one of whose operands is itself
accepted. -/
def claimStringShaped : Node → Bool
  | .Literal (.str _) => true
  | .TemplateLiteral _ _ => true
  | .CallExpression (.MemberExpression _ prop _) _ =>
    (match nodeNameAttr prop with
     | some m => decide (m = "toString" ∨ m = "substring" ∨ m = "charAt" ∨ m = "slice")
     | none => false)
  | .BinaryExpression a op b => decide (op = "+") && (claimStringShaped a || claimStringShaped b)
  | _ => false

/-- Python-style substring test (`needle in hay`). -/
def listContains (needle : List Char) : List Char → Bool
  | [] => needle.isEmpty
  | c :: t => needle.isPrefixOf (c :: t) || listContains needle t

def strContains (hay needle : String) : Bool := listContains needle.data hay.data

theorem spanP_snd_length_le (p : Char → Bool) (l : List Char) :
    (spanP p l).2.length ≤ l.length := by
  induction l with
  | nil => simp [spanP]
  | cons c rest ih =>
    simp only [spanP]
    split
    · simpa using Nat.le_succ_of_le ih
    · simp

theorem scanStringLoop_rest_length (q : Char) (l : List Char) (line col : Int)
    (acc : List Char) :
    ∀ v l2 c2 r, scanStringLoop q l line col acc = .ok (v, l2, c2, r) →
      r.length ≤ l.length := by
  induction l, line, col, acc using scanStringLoop.induct q with
  | case1 line col x =>
    intro v l2 c2 r h
    simp [scanStringLoop] at h
  | case2 rest line col acc =>
    intro v l2 c2 r h
    simp [scanStringLoop] at h
    obtain ⟨-, -, -, hr⟩ := h
    subst hr
    simp
  | case3 line col acc hq =>
    intro v l2 c2 r h
    simp [scanStringLoop, hq] at h
  | case4 line col acc e rest2 hq line2 col2 ih =>
    intro v l2 c2 r h
    simp only [scanStringLoop, if_neg hq] at h
    simp only [line2, col2] at ih h
    simp at h ih
    have := ih v l2 c2 r h
    simp
    omega
  | case5 c rest line col acc hq line2 col2 hb ih =>
    intro v l2 c2 r h
    simp only [scanStringLoop, if_neg hq] at h
    rw [if_neg hb] at h
    have := ih v l2 c2 r h
    simp
    omega

theorem scanTemplateLoop_rest_length (l : List Char) (mode : TmplMode)
    (toks : List Token) (sawExpr : Bool) (value : List Char) (line col : Int) :
    ∀ toksOut l2 c2 r,
      scanTemplateLoop l mode toks sawExpr value line col = .ok (toksOut, l2, c2, r) →
      r.length ≤ l.length := by
  induction l, mode, toks, sawExpr, value, line, col using scanTemplateLoop.induct with
  | case1 x x1 x2 x3 line col =>
    intro toksOut l2 c2 r h
    rw [scanTemplateLoop.eq_def] at h
    simp at h
  | case2 rest bc acc toks sawExpr value line col ih =>
    intro toksOut l2 c2 r h
    rw [scanTemplateLoop.eq_def] at h
    simp at h
    have := ih toksOut l2 c2 r h
    simp
    omega
  | case3 rest bc acc toks sawExpr value line col hbc text hne ih =>
    intro toksOut l2 c2 r h
    rw [scanTemplateLoop.eq_def] at h
    simp [hbc] at h
    have := ih toksOut l2 c2 r h
    simp
    omega
  | case4 rest bc acc toks sawExpr value line col hbc hne ih =>
    intro toksOut l2 c2 r h
    rw [scanTemplateLoop.eq_def] at h
    simp [hbc] at h
    have := ih toksOut l2 c2 r h
    simp
    omega
  | case5 c rest bc acc toks sawExpr value line col hc1 hc2 ih =>
    intro toksOut l2 c2 r h
    rw [scanTemplateLoop.eq_def] at h
    simp [hc1, hc2] at h
    have := ih toksOut l2 c2 r h
    simp
    omega
  | case6 rest toks sawExpr value line col =>
    intro toksOut l2 c2 r h
    rw [scanTemplateLoop.eq_def] at h
    simp at h
    obtain ⟨-, -, -, hr⟩ := h
    subst hr
    simp
  | case7 c toks sawExpr value line col hc toks2 head rest2 hguard ih =>
    intro toksOut l2 c2 r h
    rw [scanTemplateLoop.eq_def] at h
    obtain ⟨hdollar, hhead⟩ := hguard
    subst hdollar
    simp at hhead
    subst hhead
    simp at h
    simp only [toks2] at ih
    simp at ih
    have := ih toksOut l2 c2 r h
    simp
    omega
  | case8 c toks sawExpr value line col hc hguard =>
    intro toksOut l2 c2 r h
    simp at hguard
  | case9 rest toks sawExpr value line col h1 h2 ih =>
    intro toksOut l2 c2 r h
    rw [scanTemplateLoop.eq_def] at h
    simp [h2] at h
    have := ih toksOut l2 c2 r h
    simp
    omega
  | case10 toks sawExpr value line col h1 h2 h3 =>
    intro toksOut l2 c2 r h
    rw [scanTemplateLoop.eq_def] at h
    simp at h
  | case11 toks sawExpr value line col c rest h1 h2 h3 ih =>
    intro toksOut l2 c2 r h
    rw [scanTemplateLoop.eq_def] at h
    simp [h3] at h
    have := ih toksOut l2 c2 r h
    simp
    omega
  | case12 c rest toks sawExpr value line col h1 h2 h3 h4 ih =>
    intro toksOut l2 c2 r h
    rw [scanTemplateLoop.eq_def] at h
    simp [h1, h2, h3, h4] at h
    have := ih toksOut l2 c2 r h
    simp
    omega

theorem scanBlockCommentLoop_rest_length (l : List Char) (line col : Int) :
    (scanBlockCommentLoop l line col).2.2.length ≤ l.length := by
  induction l, line, col using scanBlockCommentLoop.induct with
  | case1 line col => simp [scanBlockCommentLoop]
  | case2 rest line col => simp [scanBlockCommentLoop]; omega
  | case3 c rest line col hne line2 col2 ih =>
    rw [scanBlockCommentLoop.eq_def]
    split
    · simp
    · rename_i rest2 heq
      injection heq with h1 h2
      exact (hne rest2 h1 h2).elim
    · rename_i c2 rest2 hne2 heq
      injection heq with h1 h2
      subst h1
      subst h2
      exact le_trans ih (by simp)

theorem scanNumberMantissa_rest_length (first : Char) (rest : List Char) (col : Int) :
    (scanNumberMantissa first rest col).2.2.length ≤ rest.length := by
  rw [scanNumberMantissa.eq_def]
  dsimp only
  have h1 := spanP_snd_length_le pyIsDigit rest
  split
  · rename_i r2 heq
    split
    · have h2 := spanP_snd_length_le pyIsDigit r2
      have : r2.length < (spanP pyIsDigit rest).2.length := by rw [heq]; simp
      simp only []
      omega
    · simp only []
      omega
  · rename_i other heq
    simp only []
    omega

theorem scanNumberSign_rest_length (chars : List Char) (e : Char) (col2 : Int)
    (r4 : List Char) : (scanNumberSign chars e col2 r4).2.2.length ≤ r4.length := by
  rw [scanNumberSign.eq_def]
  split
  · split <;> simp
  · simp

theorem scanNumber_rest_length (first : Char) (rest : List Char) (line col : Int)
    (tok : Token) (l2 : Int) (r : List Char)
    (h : scanNumber first rest line col = .ok (tok, l2, r)) :
    r.length ≤ rest.length := by
  have hm := scanNumberMantissa_rest_length first rest col
  rw [scanNumber.eq_def] at h
  dsimp only at h
  split at h
  · rename_i e r4 heq
    have hr4 : r4.length < rest.length := by
      have : (e :: r4).length ≤ rest.length := by rw [← heq]; exact hm
      simp at this
      omega
    split at h
    · have hs := scanNumberSign_rest_length (scanNumberMantissa first rest col).1 e
        (scanNumberMantissa first rest col).2.1 r4
      split at h
      · simp only [Except.ok.injEq, Prod.mk.injEq] at h
        obtain ⟨-, -, hr⟩ := h
        subst hr
        have := spanP_snd_length_le pyIsDigit (scanNumberSign (scanNumberMantissa first rest col).1 e (scanNumberMantissa first rest col).2.1 r4).2.2
        omega
      · simp at h
    · simp only [Except.ok.injEq, Prod.mk.injEq] at h
      obtain ⟨-, -, hr⟩ := h
      subst hr
      simp
      omega
  · rename_i heq
    simp only [Except.ok.injEq, Prod.mk.injEq] at h
    obtain ⟨-, -, hr⟩ := h
    subst hr
    simp

theorem scanIdent_rest_length (first : Char) (rest : List Char) (line col : Int) :
    (scanIdent first rest line col).2.2.length ≤ rest.length := by
  rw [scanIdent.eq_def]
  dsimp only
  exact spanP_snd_length_le _ _

theorem scanAsciiOperator_rest_length (c : Char) (rest : List Char) (line col : Int)
    (tok : Token) (col2 : Int) (r : List Char)
    (h : scanAsciiOperator c rest line col = some (tok, col2, r)) :
    r.length ≤ rest.length := by
  unfold scanAsciiOperator at h
  split at h <;> simp_all <;> omega

theorem scanLineComment_rest_length (rest : List Char) (col : Int) :
    (scanLineComment rest col).2.length ≤ rest.length := by
  unfold scanLineComment
  exact spanP_snd_length_le _ _

set_option maxHeartbeats 4000000 in
theorem scanToken_rest_length (c : Char) (rest : List Char) (line col : Int)
    (ts : List Token) (l2 c2 : Int) (r : List Char)
    (h : scanToken c rest line col = .ok (ts, l2, c2, r)) :
    r.length ≤ rest.length := by
  rw [scanToken.eq_def] at h
  by_cases h1 : c = ' ' ∨ c = '\r' ∨ c = '\t'
  · rw [if_pos h1] at h
    simp at h
    obtain ⟨-, -, -, hr⟩ := h
    subst hr
    exact le_rfl
  rw [if_neg h1] at h
  by_cases h2 : c = '\n'
  · rw [if_pos h2] at h
    simp at h
    obtain ⟨-, -, -, hr⟩ := h
    subst hr
    exact le_rfl
  rw [if_neg h2] at h
  by_cases h3 : c = '/'
  · rw [if_pos h3] at h
    split at h
    · rename_i rest0 t
      dsimp only at h
      simp at h
      obtain ⟨-, -, hp⟩ := h
      have hle := scanLineComment_rest_length ('/' :: t) col
      rw [hp] at hle
      exact hle
    · rename_i rest0 r2
      dsimp only at h
      simp at h
      obtain ⟨-, hp⟩ := h
      have hle := scanBlockCommentLoop_rest_length r2 line (col + 1)
      rw [hp] at hle
      simp
      exact Nat.le_succ_of_le hle
    · simp at h
      obtain ⟨-, -, -, hr⟩ := h
      subst hr
      exact le_rfl
  rw [if_neg h3] at h
  by_cases h4 : c = '\x60'
  · rw [if_pos h4] at h
    split at h
    · simp at h
    · rename_i toks lx cx rx heq
      simp at h
      obtain ⟨-, -, -, hr⟩ := h
      subst hr
      exact scanTemplateLoop_rest_length _ _ _ _ _ _ _ _ _ _ _ heq
  rw [if_neg h4] at h
  by_cases h5 : c = '"' ∨ c = '\x27'
  · rw [if_pos h5] at h
    split at h
    · simp at h
    · rename_i v lx cx rx heq
      simp at h
      obtain ⟨-, -, -, hr⟩ := h
      subst hr
      exact scanStringLoop_rest_length _ _ _ _ _ _ _ _ _ heq
  rw [if_neg h5] at h
  by_cases h6 : (lookupMathConstant c).isSome ∨ (lookupMathOperator c).isSome
  · rw [if_pos h6] at h
    split at h
    · simp at h
      obtain ⟨-, -, -, hr⟩ := h
      subst hr
      exact le_rfl
    · simp at h
  rw [if_neg h6] at h
  by_cases h7 : pyIsDigit c = true
  · rw [if_pos h7] at h
    split at h
    · simp at h
    · rename_i tok lx rx heq
      simp at h
      obtain ⟨-, -, -, hr⟩ := h
      subst hr
      exact scanNumber_rest_length _ _ _ _ _ _ _ heq
  rw [if_neg h7] at h
  by_cases h8 : c = '|'
  · rw [if_pos h8] at h
    split at h
    · simp at h
      obtain ⟨-, -, -, hr⟩ := h
      subst hr
      simp
    · simp at h
      obtain ⟨-, -, -, hr⟩ := h
      subst hr
      simp
    · simp at h
      obtain ⟨-, -, -, hr⟩ := h
      subst hr
      exact le_rfl
  rw [if_neg h8] at h
  by_cases h9 : c = '<' ∧ rest.head? = some '|'
  · rw [if_pos h9] at h
    split at h
    · simp at h
      obtain ⟨-, -, -, hr⟩ := h
      subst hr
      simp
    · simp at h
      obtain ⟨-, -, -, hr⟩ := h
      subst hr
      exact le_rfl
  rw [if_neg h9] at h
  by_cases h10 : c = '.' ∧ rest.head? = some '.'
  · rw [if_pos h10] at h
    split at h
    · simp at h
      obtain ⟨-, -, -, hr⟩ := h
      subst hr
      simp
      omega
    · simp at h
      obtain ⟨-, -, -, hr⟩ := h
      subst hr
      simp
    · simp at h
      obtain ⟨-, -, -, hr⟩ := h
      subst hr
      exact le_rfl
  rw [if_neg h10] at h
  split at h
  · rename_i tok cx rx heq
    simp at h
    obtain ⟨-, -, -, hr⟩ := h
    subst hr
    exact scanAsciiOperator_rest_length _ _ _ _ _ _ _ heq
  · split at h
    · simp at h
      obtain ⟨-, -, -, hr⟩ := h
      subst hr
      exact le_rfl
    · by_cases h11 : c.isAlpha ∨ c = '_' ∨ c = '$'
      · rw [if_pos h11] at h
        dsimp only at h
        simp at h
        obtain ⟨-, -, hp⟩ := h
        have hle := scanIdent_rest_length c rest line col
        rw [hp] at hle
        exact hle
      · rw [if_neg h11] at h
        simp at h

theorem tokenizeLoop_ne_none (fuel : Nat) (rest : List Char) (line col : Int)
    (toks : List Token) (hfuel : rest.length < fuel) :
    tokenizeLoop fuel rest line col toks ≠ none := by
  induction fuel generalizing rest line col toks with
  | zero => simp at hfuel
  | succ n ih =>
    cases rest with
    | nil => simp [tokenizeLoop]
    | cons c r =>
      simp only [tokenizeLoop]
      split
      · simp
      · rename_i nt l2 c2 r2 heq
        have hlen := scanToken_rest_length c r line (col + 1) nt l2 c2 r2 heq
        apply ih
        simp at hfuel
        omega

theorem tokenizeCore_ne_none (source : String) : tokenizeCore source ≠ none := by
  have h := tokenizeLoop_ne_none (source.length + 1) source.toList 1 1 []
    (Nat.lt_succ_self _)
  rw [tokenizeCore.eq_def]
  split
  · rename_i heq
    exact absurd heq h
  · simp
  · simp

theorem tokenizeCore_ok_eof (source : String) (toks : List Token)
    (h : tokenizeCore source = some (.ok toks)) :
    ∃ t, toks.getLast? = some t ∧ t.type = .EOF := by
  rw [tokenizeCore.eq_def] at h
  split at h
  · simp at h
  · simp at h
  · rename_i toks0 line col heq
    simp at h
    subst h
    refine ⟨⟨.EOF, "", line, col, none⟩, ?_, rfl⟩
    exact List.getLast?_concat _

theorem lookupKeyword_not_template (s : String) :
    lookupKeyword s ≠ .TEMPLATE_START ∧ lookupKeyword s ≠ .TEMPLATE_MIDDLE := by
  unfold lookupKeyword
  cases hf : lexKeywords.find? (fun e => e.1 = s) with
  | none => simp
  | some e =>
    have hm := List.mem_of_find?_eq_some hf
    have hall : ∀ p ∈ lexKeywords, p.2 ≠ TokenType.TEMPLATE_START ∧
        p.2 ≠ TokenType.TEMPLATE_MIDDLE := by decide
    exact hall e hm

theorem lookupMathConstant_not_template (c : Char) (t : TokenType) (nm : String)
    (h : lookupMathConstant c = some (t, nm)) :
    t ≠ .TEMPLATE_START ∧ t ≠ .TEMPLATE_MIDDLE := by
  unfold lookupMathConstant at h
  cases hf : MATHEMATICAL_CONSTANTS.find? (fun e => e.1 = c) with
  | none => rw [hf] at h; simp at h
  | some e =>
    rw [hf] at h
    simp at h
    have hm := List.mem_of_find?_eq_some hf
    have hall : ∀ p ∈ MATHEMATICAL_CONSTANTS, p.2.1 ≠ TokenType.TEMPLATE_START ∧
        p.2.1 ≠ TokenType.TEMPLATE_MIDDLE := by decide
    have := hall e hm
    rw [h] at this
    exact this

theorem lookupMathOperator_not_template (c : Char) (t : TokenType) (nm : String)
    (h : lookupMathOperator c = some (t, nm)) :
    t ≠ .TEMPLATE_START ∧ t ≠ .TEMPLATE_MIDDLE := by
  unfold lookupMathOperator at h
  cases hf : MATHEMATICAL_OPERATORS.find? (fun e => e.1 = c) with
  | none => rw [hf] at h; simp at h
  | some e =>
    rw [hf] at h
    simp at h
    have hm := List.mem_of_find?_eq_some hf
    have hall : ∀ p ∈ MATHEMATICAL_OPERATORS, p.2.1 ≠ TokenType.TEMPLATE_START ∧
        p.2.1 ≠ TokenType.TEMPLATE_MIDDLE := by decide
    have := hall e hm
    rw [h] at this
    exact this

theorem templateTextTokenOk_of_type_ne (t : Token)
    (h1 : t.type ≠ .TEMPLATE_START) (h2 : t.type ≠ .TEMPLATE_MIDDLE) :
    templateTextTokenOk t = true := by
  simp [templateTextTokenOk]
  tauto

theorem templateTextTokenOk_of_value_ne (t : Token) (h : t.value ≠ "") :
    templateTextTokenOk t = true := by
  simp [templateTextTokenOk]
  tauto

theorem templateTextTokenOk_append (toks : List Token) (t0 : Token)
    (hin : ∀ t ∈ toks, templateTextTokenOk t = true)
    (h0 : templateTextTokenOk t0 = true) :
    ∀ t ∈ toks ++ [t0], templateTextTokenOk t = true := by
  intro t ht
  rcases List.mem_append.mp ht with h1 | h1
  · exact hin t h1
  · simp at h1
    subst h1
    exact h0

theorem scanTemplateLoop_no_empty_text (l : List Char) (mode : TmplMode)
    (toks : List Token) (sawExpr : Bool) (value : List Char) (line col : Int) :
    ∀ out l2 c2 r,
      scanTemplateLoop l mode toks sawExpr value line col = .ok (out, l2, c2, r) →
      (∀ t ∈ toks, templateTextTokenOk t = true) →
      ∀ t ∈ out, templateTextTokenOk t = true := by
  induction l, mode, toks, sawExpr, value, line, col using scanTemplateLoop.induct with
  | case1 x x1 x2 x3 line col =>
    intro out l2 c2 r h hin
    rw [scanTemplateLoop.eq_def] at h
    simp at h
  | case2 rest bc acc toks sawExpr value line col ih =>
    intro out l2 c2 r h hin
    rw [scanTemplateLoop.eq_def] at h
    simp at h
    exact ih out l2 c2 r h hin
  | case3 rest bc acc toks sawExpr value line col hbc text hne ih =>
    intro out l2 c2 r h hin
    rw [scanTemplateLoop.eq_def] at h
    simp [hbc] at h
    refine ih out l2 c2 r h ?_
    exact templateTextTokenOk_append toks _ hin
      (templateTextTokenOk_of_type_ne _ (by simp [mkTok]) (by simp [mkTok]))
  | case4 rest bc acc toks sawExpr value line col hbc hne ih =>
    intro out l2 c2 r h hin
    rw [scanTemplateLoop.eq_def] at h
    simp [hbc] at h
    exact ih out l2 c2 r h hin
  | case5 c rest bc acc toks sawExpr value line col hc1 hc2 ih =>
    intro out l2 c2 r h hin
    rw [scanTemplateLoop.eq_def] at h
    simp [hc1, hc2] at h
    exact ih out l2 c2 r h hin
  | case6 rest toks sawExpr value line col =>
    intro out l2 c2 r h hin
    rw [scanTemplateLoop.eq_def] at h
    simp at h
    obtain ⟨hout, -, -, -⟩ := h
    subst hout
    split
    · exact templateTextTokenOk_append toks _ hin
        (templateTextTokenOk_of_type_ne _ (by simp [mkTok]) (by simp [mkTok]))
    · exact templateTextTokenOk_append toks _ hin
        (templateTextTokenOk_of_type_ne _ (by simp [mkTok]) (by simp [mkTok]))
  | case7 c toks sawExpr value line col hc toks2 head rest2 hguard ih =>
    intro out l2 c2 r h hin
    rw [scanTemplateLoop.eq_def] at h
    obtain ⟨hdollar, hhead⟩ := hguard
    subst hdollar
    simp at hhead
    subst hhead
    simp at h
    simp only [toks2] at ih
    simp at ih
    refine ih out l2 c2 r h ?_
    by_cases hv : value = []
    · simp [hv]
      exact hin
    · simp [hv]
      split
      · refine templateTextTokenOk_append toks _ hin ?_
        refine templateTextTokenOk_of_value_ne _ ?_
        simp [mkTok]
        intro hmk
        exact hv (by simpa using congrArg String.data hmk)
      · refine templateTextTokenOk_append toks _ hin ?_
        refine templateTextTokenOk_of_value_ne _ ?_
        simp [mkTok]
        intro hmk
        exact hv (by simpa using congrArg String.data hmk)
  | case8 c toks sawExpr value line col hc hguard =>
    intro out l2 c2 r h hin
    simp at hguard
  | case9 rest toks sawExpr value line col h1 h2 ih =>
    intro out l2 c2 r h hin
    rw [scanTemplateLoop.eq_def] at h
    simp [h2] at h
    exact ih out l2 c2 r h hin
  | case10 toks sawExpr value line col h1 h2 h3 =>
    intro out l2 c2 r h hin
    rw [scanTemplateLoop.eq_def] at h
    simp at h
  | case11 toks sawExpr value line col c rest h1 h2 h3 ih =>
    intro out l2 c2 r h hin
    rw [scanTemplateLoop.eq_def] at h
    simp [h3] at h
    exact ih out l2 c2 r h hin
  | case12 c rest toks sawExpr value line col h1 h2 h3 h4 ih =>
    intro out l2 c2 r h hin
    rw [scanTemplateLoop.eq_def] at h
    simp [h1, h2, h3, h4] at h
    exact ih out l2 c2 r h hin

theorem scanMathUnicode_not_template (c : Char) (line col : Int) (tok : Token)
    (h : scanMathUnicode c line col = some tok) :
    tok.type ≠ .TEMPLATE_START ∧ tok.type ≠ .TEMPLATE_MIDDLE := by
  unfold scanMathUnicode at h
  split at h
  · rename_i t nm heq
    simp at h
    subst h
    simpa [mkTok] using lookupMathConstant_not_template c t nm heq
  · split at h
    · rename_i t nm heq
      split at h
      · simp at h
        subst h
        simpa [mkTok] using lookupMathOperator_not_template c t nm heq
      · simp at h
        subst h
        simpa [mkTok] using lookupMathOperator_not_template c t nm heq
    · simp at h

theorem scanNumber_not_template (first : Char) (rest : List Char) (line col : Int)
    (tok : Token) (l2 : Int) (r : List Char)
    (h : scanNumber first rest line col = .ok (tok, l2, r)) :
    tok.type ≠ .TEMPLATE_START ∧ tok.type ≠ .TEMPLATE_MIDDLE := by
  rw [scanNumber.eq_def] at h
  dsimp only at h
  split at h
  · split at h
    · split at h
      · simp at h
        obtain ⟨ht, -, -⟩ := h
        subst ht
        simp [mkTok]
      · simp at h
    · simp at h
      obtain ⟨ht, -, -⟩ := h
      subst ht
      simp [mkTok]
  · simp at h
    obtain ⟨ht, -, -⟩ := h
    subst ht
    simp [mkTok]

theorem scanAsciiOperator_not_template (c : Char) (rest : List Char) (line col : Int)
    (tok : Token) (col2 : Int) (r : List Char)
    (h : scanAsciiOperator c rest line col = some (tok, col2, r)) :
    tok.type ≠ .TEMPLATE_START ∧ tok.type ≠ .TEMPLATE_MIDDLE := by
  unfold scanAsciiOperator at h
  split at h <;>
    first
      | (simp at h
         obtain ⟨ht, -, -⟩ := h
         subst ht
         simp [mkTok])
      | simp at h

theorem punctuationMap_not_template (c : Char) (t : TokenType)
    (h : punctuationMap c = some t) :
    t ≠ .TEMPLATE_START ∧ t ≠ .TEMPLATE_MIDDLE := by
  unfold punctuationMap at h
  split at h <;> simp at h <;> subst h <;> simp

set_option maxHeartbeats 4000000 in
theorem scanToken_no_empty_text (c : Char) (rest : List Char) (line col : Int)
    (ts : List Token) (l2 c2 : Int) (r : List Char)
    (h : scanToken c rest line col = .ok (ts, l2, c2, r)) :
    ∀ t ∈ ts, templateTextTokenOk t = true := by
  rw [scanToken.eq_def] at h
  by_cases h1 : c = ' ' ∨ c = '\r' ∨ c = '\t'
  · rw [if_pos h1] at h
    simp at h
    obtain ⟨hts, -, -, -⟩ := h
    subst hts
    simp
  rw [if_neg h1] at h
  by_cases h2 : c = '\n'
  · rw [if_pos h2] at h
    simp at h
    obtain ⟨hts, -, -, -⟩ := h
    subst hts
    intro t ht
    simp at ht
    subst ht
    exact templateTextTokenOk_of_type_ne _ (by simp [mkTok]) (by simp [mkTok])
  rw [if_neg h2] at h
  by_cases h3 : c = '/'
  · rw [if_pos h3] at h
    split at h
    · dsimp only at h
      simp at h
      obtain ⟨hts, -, -⟩ := h
      subst hts
      simp
    · dsimp only at h
      simp at h
      obtain ⟨hts, -⟩ := h
      subst hts
      simp
    · simp at h
      obtain ⟨hts, -, -, -⟩ := h
      subst hts
      intro t ht
      simp at ht
      subst ht
      exact templateTextTokenOk_of_type_ne _ (by simp [mkTok]) (by simp [mkTok])
  rw [if_neg h3] at h
  by_cases h4 : c = '\x60'
  · rw [if_pos h4] at h
    split at h
    · simp at h
    · rename_i toks lx cx rx heq
      simp at h
      obtain ⟨hts, -, -, -⟩ := h
      subst hts
      exact scanTemplateLoop_no_empty_text _ _ _ _ _ _ _ _ _ _ _ heq (by simp)
  rw [if_neg h4] at h
  by_cases h5 : c = '"' ∨ c = '\x27'
  · rw [if_pos h5] at h
    split at h
    · simp at h
    · rename_i v lx cx rx heq
      simp at h
      obtain ⟨hts, -, -, -⟩ := h
      subst hts
      intro t ht
      simp at ht
      subst ht
      exact templateTextTokenOk_of_type_ne _ (by simp [mkTok]) (by simp [mkTok])
  rw [if_neg h5] at h
  by_cases h6 : (lookupMathConstant c).isSome ∨ (lookupMathOperator c).isSome
  · rw [if_pos h6] at h
    split at h
    · rename_i tok heq
      simp at h
      obtain ⟨hts, -, -, -⟩ := h
      subst hts
      intro t ht
      simp at ht
      subst ht
      have := scanMathUnicode_not_template c line col t heq
      exact templateTextTokenOk_of_type_ne _ this.1 this.2
    · simp at h
  rw [if_neg h6] at h
  by_cases h7 : pyIsDigit c = true
  · rw [if_pos h7] at h
    split at h
    · simp at h
    · rename_i tok lx rx heq
      simp at h
      obtain ⟨hts, -, -, -⟩ := h
      subst hts
      intro t ht
      simp at ht
      subst ht
      have := scanNumber_not_template c rest line col t lx rx heq
      exact templateTextTokenOk_of_type_ne _ this.1 this.2
  rw [if_neg h7] at h
  by_cases h8 : c = '|'
  · rw [if_pos h8] at h
    split at h <;>
      (simp at h
       obtain ⟨hts, -, -, -⟩ := h
       subst hts
       intro t ht
       simp at ht
       subst ht
       exact templateTextTokenOk_of_type_ne _ (by simp [mkTok]) (by simp [mkTok]))
  rw [if_neg h8] at h
  by_cases h9 : c = '<' ∧ rest.head? = some '|'
  · rw [if_pos h9] at h
    split at h
    · simp at h
      obtain ⟨hts, -, -, -⟩ := h
      subst hts
      intro t ht
      simp at ht
      subst ht
      exact templateTextTokenOk_of_type_ne _ (by simp [mkTok]) (by simp [mkTok])
    · simp at h
      obtain ⟨hts, -, -, -⟩ := h
      subst hts
      simp
  rw [if_neg h9] at h
  by_cases h10 : c = '.' ∧ rest.head? = some '.'
  · rw [if_pos h10] at h
    split at h
    · simp at h
      obtain ⟨hts, -, -, -⟩ := h
      subst hts
      intro t ht
      simp at ht
      subst ht
      exact templateTextTokenOk_of_type_ne _ (by simp [mkTok]) (by simp [mkTok])
    · simp at h
      obtain ⟨hts, -, -, -⟩ := h
      subst hts
      intro t ht
      simp at ht
      subst ht
      exact templateTextTokenOk_of_type_ne _ (by simp [mkTok]) (by simp [mkTok])
    · simp at h
      obtain ⟨hts, -, -, -⟩ := h
      subst hts
      simp
  rw [if_neg h10] at h
  split at h
  · rename_i tok cx rx heq
    simp at h
    obtain ⟨hts, -, -, -⟩ := h
    subst hts
    intro t ht
    simp at ht
    subst ht
    have := scanAsciiOperator_not_template c rest line col t cx rx heq
    exact templateTextTokenOk_of_type_ne _ this.1 this.2
  · split at h
    · rename_i tt heq
      simp at h
      obtain ⟨hts, -, -, -⟩ := h
      subst hts
      intro t ht
      simp at ht
      subst ht
      have := punctuationMap_not_template c tt heq
      exact templateTextTokenOk_of_type_ne _ (by simp [mkTok]; exact this.1)
        (by simp [mkTok]; exact this.2)
    · by_cases h11 : c.isAlpha ∨ c = '_' ∨ c = '$'
      · rw [if_pos h11] at h
        dsimp only at h
        simp at h
        obtain ⟨hts, -, -⟩ := h
        subst hts
        intro t ht
        simp at ht
        subst ht
        have hk := lookupKeyword_not_template (String.mk (c :: (spanP pyIdentCont rest).1))
        refine templateTextTokenOk_of_type_ne _ ?_ ?_ <;>
          simp [scanIdent, mkTok] <;> simp_all
      · rw [if_neg h11] at h
        simp at h

theorem tokenizeLoop_no_empty_text (fuel : Nat) :
    ∀ rest line col toks out (l2 c2 : Int),
      (∀ t ∈ toks, templateTextTokenOk t = true) →
      tokenizeLoop fuel rest line col toks = some (.ok (out, l2, c2)) →
      ∀ t ∈ out, templateTextTokenOk t = true := by
  induction fuel with
  | zero =>
    intro rest line col toks out l2 c2 hin h
    simp [tokenizeLoop] at h
  | succ n ih =>
    intro rest line col toks out l2 c2 hin h
    cases rest with
    | nil =>
      simp [tokenizeLoop] at h
      obtain ⟨hout, -, -⟩ := h
      subst hout
      exact hin
    | cons c r =>
      simp only [tokenizeLoop] at h
      split at h
      · simp at h
      · rename_i nt lx cx rx heq
        refine ih rx lx cx (toks ++ nt) out l2 c2 ?_ h
        intro t ht
        rcases List.mem_append.mp ht with hmem | hmem
        · exact hin t hmem
        · exact scanToken_no_empty_text c r line (col + 1) nt lx cx rx heq t hmem

theorem tokenize_no_empty_text (s : String) (toks : List Token)
    (h : tokenize s = .ok toks) :
    ∀ t ∈ toks, templateTextTokenOk t = true := by
  unfold tokenize tokenizeCore at h
  split at h
  · simp [fuelLexError] at h
  · simp at h
  · rename_i toks0 line col heq
    simp at h
    subst h
    intro t ht
    rcases List.mem_append.mp ht with hmem | hmem
    · exact tokenizeLoop_no_empty_text _ _ _ _ _ _ _ _ (by simp) heq t hmem
    · simp at hmem
      subst hmem
      exact templateTextTokenOk_of_type_ne _ (by simp) (by simp)

theorem parse_return_outside_function (fuel : Nat) (st : PState)
    (h : st.in_function = false) :
    parse_return_statement (fuel + 1) st =
      .error (.parse "return statement outside function") := by
  unfold parse_return_statement
  simp only [runP]
  simp [pmReturnStmt, h]

theorem parse_break_outside_loop (fuel : Nat) (st : PState)
    (h : st.in_loop = false) :
    parse_break_statement (fuel + 1) st =
      .error (.parse "break statement outside loop") := by
  unfold parse_break_statement
  simp only [runP]
  simp [pmBreakStmt, h]

theorem parse_continue_outside_loop (fuel : Nat) (st : PState)
    (h : st.in_loop = false) :
    parse_continue_statement (fuel + 1) st =
      .error (.parse "continue statement outside loop") := by
  unfold parse_continue_statement
  simp only [runP]
  simp [pmContinueStmt, h]

theorem strShaped_eq_claimStringShaped (n : Node) :
    strShaped n = claimStringShaped n := by
  induction n using strShaped.induct <;>
    simp_all [strShaped, claimStringShaped]

/-- Claim C8: for every Binary `+` node the generator emits `(lhs .. rhs)`
exactly when the purely syntactic classifier (claimStringShaped, worded as in
the specification) accepts either operand, and `(lhs + rhs)` otherwise. -/
theorem plus_concat_dispatch (fuel : Nat) (l r : Node) :
    generate (fuel + 1) (.BinaryExpression l "+" r) =
      (do
        let left ← generate fuel l
        let right ← generate fuel r
        if claimStringShaped l || claimStringShaped r then
          pure ("(" ++ left ++ " .. " ++ right ++ ")")
        else
          pure ("(" ++ left ++ " + " ++ right ++ ")")) := by
  show visit_BinaryExpression (generate fuel) l "+" r = _
  unfold visit_BinaryExpression
  cases hl : generate fuel l with
  | error e => simp [Bind.bind, Except.bind]
  | ok left =>
    cases hr : generate fuel r with
    | error e => simp [Bind.bind, Except.bind]
    | ok right =>
      simp only [Bind.bind, Except.bind]
      rw [if_neg (by decide), if_neg (by decide), if_neg (by decide),
          if_neg (by decide), if_neg (by decide), if_neg (by decide),
          if_neg (by decide), if_neg (by decide)]
      simp only [if_true]
      rw [is_string_concatenation, strShaped_eq_claimStringShaped,
          strShaped_eq_claimStringShaped]

theorem generate_array_literal_eq (fuel : Nat) (elems : List (Option Node)) :
    generate (fuel + 1) (.ArrayExpression elems) =
      (do
        let codes ← elems.mapM (genOptElem (generate fuel))
        pure ("_LS.array(\x7b" ++ String.intercalate ", " codes ++ "\x7d)")) := by
  show visit_ArrayExpression (generate fuel) elems = _
  unfold visit_ArrayExpression
  rfl

theorem generate_array_method_call (fuel : Nat) (obj : Node) (m : String)
    (sub : Option String) (computed : Bool) (args : List Node) (luaFn : String)
    (hmath : isMathObj obj = false)
    (hcons : ¬(isConsoleObj obj = true ∧ m = "log"))
    (hlook : lookupArrayMethod m = some luaFn) :
    generate (fuel + 1)
        (.CallExpression (.MemberExpression obj (.Identifier m sub) computed) args) =
      (do
        let objCode ← generate fuel obj
        let argCodes ← args.mapM (generate fuel)
        pure (luaFn ++ "(" ++ String.intercalate ", " (objCode :: argCodes) ++ ")")) := by
  show visit_CallExpression (generate fuel)
      (.MemberExpression obj (.Identifier m sub) computed) args = _
  unfold visit_CallExpression
  cases ho : generate fuel obj with
  | error e => simp [Bind.bind, Except.bind, ho]
  | ok objCode =>
    cases ha : args.mapM (generate fuel) with
    | error e =>
      simp only [List.mapM] at ha
      simp [Bind.bind, Except.bind, hmath, hcons, hlook, ho, ha]
    | ok argCodes =>
      simp only [List.mapM] at ha
      simp [Bind.bind, Except.bind, Pure.pure, Except.pure, hmath, hcons, hlook, ho, ha]

/-- Claim C9 (amended): every non-constructor method of a class, static or
not, is emitted with colon syntax `function C:<name>(...)`; the parsed
`static` flag is never consulted, so no `function C.<name>` dot-form is
produced for it. -/
theorem nonconstructor_methods_colon_dispatch (g : Gen) (cn : String) (key value : Node)
    (kind : String) (static : Bool) (out : List String)
    (h : methodDefLines g cn (.MethodDefinition key value kind static) = .ok out) :
    methodDefLines g cn (.MethodDefinition key value kind false) = .ok out ∧
    ∃ head body, out = [head, body, "end"] ∧
      ∃ tail, head = "function " ++ cn ++ ":" ++ tail := by
  unfold methodDefLines at h ⊢
  cases value with
  | FunctionDeclaration fname params mbody rt im ia =>
    cases hb : g mbody with
    | error e => simp [Bind.bind, Except.bind, hb] at h
    | ok bodyCode =>
      simp [Bind.bind, Except.bind, Pure.pure, Except.pure, hb] at h ⊢
      subst h
      constructor
      · rfl
      · refine ⟨_, ⟨_, rfl⟩,
          ⟨(nodeNameAttr key).getD "" ++ "(" ++ ", ".intercalate (paramNames params) ++ ")", ?_⟩⟩
        simp [String.append_assoc]
  | Program s => simp at h
  | VariableDeclaration a b => simp at h
  | VariableDeclarator a b d => simp at h
  | ArrowFunctionExpression a b => simp at h
  | Parameter a b d e => simp at h
  | IfStatement a b d => simp at h
  | ForStatement a b d e => simp at h
  | ForOfStatement a b d => simp at h
  | WhileStatement a b => simp at h
  | TryStatement a b d => simp at h
  | CatchClause a b => simp at h
  | ClassDeclaration a b d => simp at h
  | MethodDefinition a b d e => simp at h
  | _ => simp at h

set_option maxHeartbeats 4000000 in
/-- Claim C1 (code bug): the front-end accepts the mathematical shorthand
`f(x) = x;` and parses it to a mathematical FunctionDeclaration whose body
is Return(x), but the emitted Lua body is `return nil`: the generator
discards the returned expression instead of translating it. -/
theorem mathematical_shorthand_parses_but_body_discarded :
    parse_source 150 "f(x) = x;" "<string>" =
      .ok (.Program [.FunctionDeclaration "f"
        [.Parameter "x" none none false]
        (.BlockStatement [.ReturnStatement (some (.Identifier "x" none))])
        none true false]) ∧
    transpile 150 "f(x) = x;" "<string>" =
      .ok ("local _LS = require(\"runtime/core/enhanced_runtime\")\n\n-- Generated by LUASCRIPT Enhanced Transpiler\n-- Mathematical programming with Unicode operator support\n\nlocal function f(x)\n  return nil\nend") :=
  ⟨by rfl, by rfl⟩

/-- Claim C2 (code bug): compiling `let a = π × 2² + √9;` does not emit
`local a = ((math.pi * (2 ^ 2)) + math.sqrt(9))`; the lexer swallows the
superscript into the NUMBER lexeme `2²` and the whole statement fails with
a float-conversion error. -/
theorem unicode_example_statement_fails :
    transpile 150 "let a = π × 2² + √9;" "<string>" =
      .error ⟨"Transpilation failed: Parse Error: Unexpected error parsing statement: could not convert string to float: \x272²\x27"⟩ := rfl

/-- Claim C3 (code bug): the arrow-function lookahead does not restore the
cursor when it fails, so a parenthesized expression such as `(1 + 2)` in
expression position is rejected inside the abandoned arrow-parameter parse
instead of parsing as a grouped expression. -/
theorem paren_expression_rejected_after_arrow_lookahead :
    parse_source 150 "let y = (1 + 2);" "<string>" =
      .error (.parse "Failed to parse <string>: Parse Error: Expected parameter name. Got NUMBER: \x271\x27") := rfl

set_option maxHeartbeats 8000000 in
/-- Claim C4: the chained array example transpiles to output containing the
expected `_LS.reduce(_LS.map(_LS.array(...), ...), ..., 0)` rewrite; array
literals always become `_LS.array(\x7b...\x7d)`, and a call whose receiver
form is `<expr>.<knownArrayMethod>(...)` (receiver neither the Math table
nor console.log) becomes `_LS.<method>(<expr>, ...)` with the receiver as
first argument. -/
theorem array_chain_rewrites :
    (∃ pre post,
      transpile 150 "let s = [1,2,3].map(x => x × 2).reduce((a,b) => a + b, 0);"
          "<string>" =
        .ok (pre ++ "_LS.reduce(_LS.map(_LS.array(\x7b1, 2, 3\x7d), function(x) return (x * 2) end), function(a, b) return (a + b) end, 0)" ++ post)) ∧
    (∀ (fuel : Nat) (elems : List (Option Node)),
      generate (fuel + 1) (.ArrayExpression elems) =
        (do
          let codes ← elems.mapM (genOptElem (generate fuel))
          pure ("_LS.array(\x7b" ++ String.intercalate ", " codes ++ "\x7d)"))) ∧
    (∀ (fuel : Nat) (obj : Node) (m : String) (sub : Option String)
        (computed : Bool) (args : List Node) (luaFn : String),
      isMathObj obj = false →
      ¬(isConsoleObj obj = true ∧ m = "log") →
      lookupArrayMethod m = some luaFn →
      generate (fuel + 1)
          (.CallExpression (.MemberExpression obj (.Identifier m sub) computed) args) =
        (do
          let objCode ← generate fuel obj
          let argCodes ← args.mapM (generate fuel)
          pure (luaFn ++ "(" ++ String.intercalate ", " (objCode :: argCodes) ++ ")"))) :=
  ⟨⟨"local _LS = require(\"runtime/core/enhanced_runtime\")\n\n-- Generated by LUASCRIPT Enhanced Transpiler\n-- Mathematical programming with Unicode operator support\n\nlocal s = ", "", rfl⟩,
   generate_array_literal_eq, generate_array_method_call⟩

theorem array_chain_rewrites_witness :
    generate 2 (.CallExpression
      (.MemberExpression (.Identifier "xs" none) (.Identifier "map" none) false) []) =
      .ok "_LS.map(xs)" := by
  rw [array_chain_rewrites.2.2 1 (.Identifier "xs" none) "map" none false [] "_LS.map"
    (by decide) (by decide) (by decide)]
  rfl

/-- Claim C5 (code bug): the lexer tokenizes both `**` and `^` as POWER,
but the parser never consumes a POWER token, so `a ** b` and `a ^ b` are
rejected with "Unexpected token" instead of parsing as exponentiation. -/
theorem power_operators_never_parsed :
    tokenize "a ** b" = .ok
      [⟨.IDENTIFIER, "a", 1, 1, none⟩, ⟨.POWER, "**", 1, 3, none⟩,
       ⟨.IDENTIFIER, "b", 1, 6, none⟩, ⟨.EOF, "", 1, 7, none⟩] ∧
    tokenize "a ^ b" = .ok
      [⟨.IDENTIFIER, "a", 1, 1, none⟩, ⟨.POWER, "^", 1, 3, none⟩,
       ⟨.IDENTIFIER, "b", 1, 5, none⟩, ⟨.EOF, "", 1, 6, none⟩] ∧
    transpile 150 "let c = a ** b;" "<string>" =
      .error ⟨"Transpilation failed: Parse Error: Unexpected token: **"⟩ ∧
    transpile 150 "let c = a ^ b;" "<string>" =
      .error ⟨"Transpilation failed: Parse Error: Unexpected token: ^"⟩ :=
  ⟨rfl, rfl, rfl, rfl⟩

/-- Claim C6: for every input string, tokenize either returns a token list
whose last element has kind EOF, or returns a lexer error (with line and
column) that arose inside the scanning loop itself (tokenizeCore, so never
the fuel fallback); no other outcome is possible. -/
theorem tokenize_totality (s : String) :
    (∃ e, tokenize s = .error e ∧ tokenizeCore s = some (.error e)) ∨
    (∃ toks t, tokenize s = .ok toks ∧ toks.getLast? = some t ∧
      t.type = .EOF) := by
  have hne := tokenizeCore_ne_none s
  cases hcore : tokenizeCore s with
  | none => exact absurd hcore hne
  | some res =>
    have htok : tokenize s = res := by unfold tokenize; rw [hcore]; rfl
    cases res with
    | error e =>
      exact .inl ⟨e, htok, rfl⟩
    | ok toks =>
      obtain ⟨t, hlast, htype⟩ := tokenizeCore_ok_eof s toks hcore
      exact .inr ⟨toks, t, htok, hlast, htype⟩

/-- Claim C7: parse_return_statement outside a function, and
parse_break_statement / parse_continue_statement outside a loop, always
raise the respective ParseError naming the keyword and the missing scope,
and whole-program parses of such statements yield an error, not an AST. -/
theorem control_statements_scope_guarded :
    (∀ (fuel : Nat) (st : PState), st.in_function = false →
      parse_return_statement (fuel + 1) st =
        .error (.parse "return statement outside function")) ∧
    (∀ (fuel : Nat) (st : PState), st.in_loop = false →
      parse_break_statement (fuel + 1) st =
        .error (.parse "break statement outside loop")) ∧
    (∀ (fuel : Nat) (st : PState), st.in_loop = false →
      parse_continue_statement (fuel + 1) st =
        .error (.parse "continue statement outside loop")) ∧
    parse_source 150 "return 1;" "<string>" =
      .error (.parse "Failed to parse <string>: Parse Error: return statement outside function") ∧
    parse_source 150 "break;" "<string>" =
      .error (.parse "Failed to parse <string>: Parse Error: break statement outside loop") ∧
    parse_source 150 "continue;" "<string>" =
      .error (.parse "Failed to parse <string>: Parse Error: continue statement outside loop") :=
  ⟨parse_return_outside_function, parse_break_outside_loop,
   parse_continue_outside_loop, rfl, rfl, rfl⟩

theorem control_statements_scope_guarded_witness :
    parse_return_statement 1 (initPState []) =
      .error (.parse "return statement outside function") :=
  control_statements_scope_guarded.1 0 (initPState []) rfl

/-- Claim C9, refuting part: a class whose only member is a static method
emits that method with colon syntax `function C:m()` and emits no dot-form
`function C.m(` anywhere in the output, contradicting the claimed
`function C.<name>` emission for static members. -/
theorem static_method_colon_not_dot :
    ∃ out,
      transpile 150 "class C \x7b static m() \x7b return 1; \x7d \x7d" "<string>" =
        .ok out ∧
      strContains out "function C.m(" = false ∧
      strContains out "function C:m(" = true :=
  ⟨"local _LS = require(\"runtime/core/enhanced_runtime\")\n\n-- Generated by LUASCRIPT Enhanced Transpiler\n-- Mathematical programming with Unicode operator support\n\nlocal C = \x7b\x7d\nC.__index = C\nfunction C:m()\n  return 1\nend",
   by rfl, by decide, by decide⟩

theorem nonconstructor_methods_colon_dispatch_witness :
    methodDefLines (generate 5) "C"
        (.MethodDefinition (.Identifier "m" none)
          (.FunctionDeclaration "m" []
            (.BlockStatement [.ReturnStatement (some (.Literal (.int 1)))])
            none false false)
          "method" false) = .ok ["function C:m()", "  return 1", "end"] ∧
    ∃ head body,
      ["function C:m()", "  return 1", "end"] = [head, body, "end"] ∧
      ∃ tail, head = "function " ++ "C" ++ ":" ++ tail :=
  nonconstructor_methods_colon_dispatch (generate 5) "C" (.Identifier "m" none)
    (.FunctionDeclaration "m" []
      (.BlockStatement [.ReturnStatement (some (.Literal (.int 1)))])
      none false false)
    "method" true ["function C:m()", "  return 1", "end"] (by rfl)

/-- Claim C10: tokenize never emits a TEMPLATE_START or TEMPLATE_MIDDLE
token whose text segment is empty, and the concrete template with an
interpolation right after the backtick and another right after the first
interpolation tokenizes to consecutive TEMPLATE_EXPRESSION tokens. -/
theorem template_empty_segments_skipped :
    (∀ (s : String) (toks : List Token), tokenize s = .ok toks →
      ∀ t ∈ toks, templateTextTokenOk t = true) ∧
    tokenize "\x60$\x7bx\x7d$\x7by\x7d\x60" = .ok
      [⟨.TEMPLATE_EXPRESSION, "x", 1, 5, none⟩,
       ⟨.TEMPLATE_EXPRESSION, "y", 1, 9, none⟩,
       ⟨.TEMPLATE_END, "", 1, 11, none⟩, ⟨.EOF, "", 1, 11, none⟩] :=
  ⟨fun s toks h => tokenize_no_empty_text s toks h, by rfl⟩

theorem template_empty_segments_skipped_witness :
    templateTextTokenOk ⟨.TEMPLATE_EXPRESSION, "x", 1, 5, none⟩ = true :=
  template_empty_segments_skipped.1 "\x60$\x7bx\x7d$\x7by\x7d\x60"
    [⟨.TEMPLATE_EXPRESSION, "x", 1, 5, none⟩,
     ⟨.TEMPLATE_EXPRESSION, "y", 1, 9, none⟩,
     ⟨.TEMPLATE_END, "", 1, 11, none⟩, ⟨.EOF, "", 1, 11, none⟩]
    (by rfl) _ (by simp)
